import Mathlib

/-!
# Verification of the Diamante bot broadcast queue and batch-transfer core

Shallow embedding of `src/services/broadcastQueueManager.js` (the
`BroadcastQueueManager` class) and of `transferWithRetry` plus the batch
transfer loop from `src/index.js`.

Modelling conventions:
* JavaScript's cooperative async scheduler is modelled as a deterministic
  event-level interpreter.  The inner dispatch loop of `processQueue` shifts a
  batch of up to `maxConcurrent - currentConcurrent` items synchronously (as
  the real event loop does before any continuation runs); a dispatched task
  whose promise settles terminally (success or non-retryable failure) runs its
  continuations in the same microtask phase, before the next timer, while a
  retryable failure enters its `_wait` backoff *without blocking the outer
  loop*: it keeps its concurrency slot and is recorded in an in-flight set
  with the absolute time at which its timer fires.  Due backoff timers are
  delivered during the loop's own waits — `unshift` onto the pending queue,
  slot release, consecutive-failure reset — which the model applies right
  after each poll (nothing runs between the end of a wait and the next check,
  so the states seen by every `queue.length` check and dispatch coincide with
  the real interleaving).  Crucially, the outer `while (queue.length > 0)`
  check sees only the pending queue: exactly as in the real code, a run can
  end — and `onComplete` fire — while retried items are still mid-backoff;
  those items later unshift into the dead queue and are stranded (the model
  leaves them in the final state's `inflight` field).
* Real time is modelled by an integer-valued millisecond clock `now`;
  `_wait(ms)` advances it.  The circuit-breaker `setTimeout` is modelled by an
  absolute deadline `breakerCloseAt`; the timer callback fires at the first
  wait whose end time reaches the deadline.
* `Math.random() * 1000` (and the transfer-loop jitters) are modelled by an
  explicit integer-valued jitter stream passed as a parameter (the bounds
  0 ≤ jitter < 1000 mirror the real-valued draw).
* Tasks are modelled by their observable behaviour: a function from the
  invocation index (= the item's retry count at dispatch time) to either
  success or a rejection carrying an error message.
* The fields `progressLog`, `completeLog`, `taskInvocations` are
  instrumentation recording the calls the JS code would make to the registered
  `onProgress` / `onComplete` callbacks and to the task closures; the JS
  object has no such fields but the calls are its observable output.
-/

/-- The `stats` record of `BroadcastQueueManager` (constructor, lines 18-23). -/
structure QStats where
  totalProcessed : Nat
  totalSuccess : Nat
  totalFailed : Nat
  totalRetries : Nat
  deriving Repr, DecidableEq

/-- Result of one invocation of a queued task: resolve, or reject with a
message (`error.message`). -/
inductive Attempt where
  | ok : Attempt
  | err (msg : String) : Attempt

/-- A queue item as built by `addToQueue` (lines 30-36).  `outcomes k` is the
behaviour of `task()` on its `k`-th invocation (`k` equals the item's retry
count when dispatched). -/
structure QueueItem where
  outcomes : Nat → Attempt
  priority : Int
  retries : Nat
  maxRetries : Nat
  addedAt : Int

/-- The snapshot passed to `onProgress` (lines 113-118). -/
structure ProgressInfo where
  processed : Nat
  success : Nat
  failed : Nat
  remaining : Nat
  deriving Repr, DecidableEq

/-- The snapshot returned by `getStats` (lines 184-192) and passed to
`onComplete`. -/
structure StatsView where
  totalProcessed : Nat
  totalSuccess : Nat
  totalFailed : Nat
  totalRetries : Nat
  queueLength : Nat
  processing : Bool
  currentConcurrent : Nat
  circuitBreakerOpen : Bool
  deriving Repr, DecidableEq

/-- One dispatched item sitting in its retry backoff (`await this._wait(delay)`
at line 126): the item as it will be `unshift`ed (retry count already
incremented, line 122) and the absolute time at which its timer fires.  In the
JS object this state lives implicitly in the pending `_processTask` promise,
which holds its concurrency slot until it resolves. -/
structure Backoff where
  item : QueueItem
  readyAt : Int

/-- The mutable state of a `BroadcastQueueManager` (constructor, lines 7-27),
parametric in the type of the registered callbacks so that the callback fields
can be stated to be preserved.  `now`, `progressLog`, `completeLog` and
`taskInvocations` are the clock and instrumentation described in the header;
`inflight` is the set of dispatched items currently in their retry backoff
(implicit pending promises in the JS object). -/
structure QState (cb : Type) where
  queue : List QueueItem
  processing : Bool
  currentConcurrent : Nat
  maxConcurrent : Nat
  consecutiveFailures : Nat
  maxConsecutiveFailures : Nat
  circuitBreakerOpen : Bool
  breakerCloseAt : Option Int
  stats : QStats
  onProgress : Option cb
  onComplete : Option cb
  progressLog : List ProgressInfo
  completeLog : List StatsView
  now : Int
  taskInvocations : Nat
  inflight : List Backoff

/-- Instantiation used by the interpreter (callback values are irrelevant to
the recorded behaviour). -/
abbrev QS := QState Unit

/-- The freshly constructed manager (constructor, lines 7-27), at clock 0. -/
def initState : QS :=
  { queue := []
    processing := false
    currentConcurrent := 0
    maxConcurrent := 5
    consecutiveFailures := 0
    maxConsecutiveFailures := 10
    circuitBreakerOpen := false
    breakerCloseAt := none
    stats := ⟨0, 0, 0, 0⟩
    onProgress := none
    onComplete := none
    progressLog := []
    completeLog := []
    now := 0
    taskInvocations := 0
    inflight := [] }

/-- `setOnProgress` (lines 218-220). -/
def setOnProgress (s : QState cb) (f : cb) : QState cb :=
  { s with onProgress := some f }

/-- `setOnComplete` (lines 222-224). -/
def setOnComplete (s : QState cb) (f : cb) : QState cb :=
  { s with onComplete := some f }

/-- `resetStats` (lines 209-216). -/
def resetStats (s : QState cb) : QState cb :=
  { s with stats := { totalProcessed := 0, totalSuccess := 0, totalFailed := 0, totalRetries := 0 } }

/-- `getStats` (lines 184-192). -/
def getStats (s : QS) : StatsView :=
  { totalProcessed := s.stats.totalProcessed
    totalSuccess := s.stats.totalSuccess
    totalFailed := s.stats.totalFailed
    totalRetries := s.stats.totalRetries
    queueLength := s.queue.length
    processing := s.processing
    currentConcurrent := s.currentConcurrent
    circuitBreakerOpen := s.circuitBreakerOpen }

/-- Character-list leading-match test, the building block for JavaScript
`String.prototype.includes`. -/
def leadMatch : List Char → List Char → Bool
  | _, [] => true
  | [], _ :: _ => false
  | h :: hs, p :: ps => h == p && leadMatch hs ps

/-- Substring occurrence on character lists. -/
def hasSubChars : List Char → List Char → Bool
  | [], pat => pat.isEmpty
  | h :: t, pat => leadMatch (h :: t) pat || hasSubChars t pat

/-- JavaScript `String.prototype.includes`. -/
def strContains (s pat : String) : Bool :=
  hasSubChars s.toList pat.toList

/-- The retryable-error keyword list of `_isRetryable` (lines 140-148). -/
def retryableErrors : List String :=
  ["timeout", "etimedout", "rate limit", "too many requests", "network", "econnreset", "flood"]

/-- `_isRetryable` (lines 137-151): lowercase the message
(`message?.toLowerCase()`, done here character-wise) and test the keyword
list. -/
def isRetryable (msg : String) : Bool :=
  retryableErrors.any (fun e => hasSubChars (msg.toList.map Char.toLower) e.toList)

/-- `_getRetryDelay` (lines 153-159): exponential backoff with base 1000 ms,
capped at 30000 ms, plus the jitter drawn by `Math.random() * 1000`. -/
def getRetryDelay (retryCount : Nat) (jitter : Int) : Int :=
  min (1000 * 2 ^ retryCount) 30000 + jitter

/-- `_openCircuitBreaker` (lines 161-178): open the breaker and (re)arm the
30000 ms close timer. -/
def openCircuitBreaker (s : QS) : QS :=
  { s with circuitBreakerOpen := true, breakerCloseAt := some (s.now + 30000) }

/-- `_wait(ms)` (lines 180-182) together with the circuit-breaker timer
callback (lines 169-177): time advances by `ms`; if the armed close deadline
has been reached the breaker closes and the consecutive-failure counter
resets. -/
def waitStep (ms : Int) (s : QS) : QS :=
  let s1 : QS := { s with now := s.now + ms }
  match s1.breakerCloseAt with
  | some t =>
      if s1.circuitBreakerOpen ∧ t ≤ s1.now then
        { s1 with circuitBreakerOpen := false, consecutiveFailures := 0, breakerCloseAt := none }
      else s1
  | none => s1

/-- The insertion step of `addToQueue` (lines 38-47), generic in the priority
projection: positive priorities are spliced before the first strictly smaller
priority, everything else is pushed to the back. -/
def queueInsertBy (prio : α → Int) (q : List α) (item : α) : List α :=
  if prio item > 0 then
    match q.findIdx? (fun x => prio x < prio item) with
    | none => q ++ [item]
    | some i => q.take i ++ item :: q.drop i
  else q ++ [item]

/-- The `queueItem` literal of `addToQueue` (lines 30-36). -/
def mkQueueItem (outcomes : Nat → Attempt) (priority : Int) (addedAt : Int) : QueueItem :=
  { outcomes := outcomes, priority := priority, retries := 0, maxRetries := 3, addedAt := addedAt }

/-- `addToQueue` (lines 29-54), as a pure state update; the `processQueue`
trigger on an idle queue (lines 49-51) is run separately by the interpreter. -/
def addToQueue (s : QS) (outcomes : Nat → Attempt) (priority : Int := 0) : QS :=
  { s with queue := queueInsertBy QueueItem.priority s.queue (mkQueueItem outcomes priority s.now) }

/-- `addBatch` (lines 56-60). -/
def addBatch (s : QS) (tasks : List (Nat → Attempt)) (priority : Int := 0) : QS :=
  tasks.foldl (fun acc t => addToQueue acc t priority) s

/-- The success branch of `_processTask` (lines 108-119): bump the success
stats, then invoke `onProgress` (if registered) with the fresh snapshot. -/
def recordSuccess (s : QS) : QS :=
  let s1 : QS := { s with stats :=
    { s.stats with
        totalSuccess := s.stats.totalSuccess + 1
        totalProcessed := s.stats.totalProcessed + 1 } }
  if s1.onProgress.isSome then
    { s1 with progressLog := s1.progressLog ++
        [{ processed := s1.stats.totalProcessed
           success := s1.stats.totalSuccess
           failed := s1.stats.totalFailed
           remaining := s1.queue.length }] }
  else s1

/-- The retry branch of `_processTask` (lines 121-128): bump the item's retry
count and `totalRetries`, wait the backoff delay computed from the item's
pre-increment retry count, then `unshift` the item back onto the queue.  The
jitter stream is indexed by the pre-increment value of `totalRetries` (one
`Math.random()` draw per retry). -/
def recordRetry (js : Nat → Int) (s : QS) (item : QueueItem) : QS :=
  let s1 : QS := { s with stats := { s.stats with totalRetries := s.stats.totalRetries + 1 } }
  let s2 : QS := waitStep (getRetryDelay item.retries (js s.stats.totalRetries)) s1
  { s2 with queue := { item with retries := item.retries + 1 } :: s2.queue }

/-- The terminal-failure branch of `_processTask` (lines 129-133), before the
re-`throw`. -/
def recordTerminalFailure (s : QS) : QS :=
  { s with stats :=
    { s.stats with
        totalFailed := s.stats.totalFailed + 1
        totalProcessed := s.stats.totalProcessed + 1 } }

/-- `_processTask` (lines 104-135) as a single async function run in
isolation to completion: its internal `await _wait(delay)` is realised as a
clock advance followed by the `unshift`.  This view states the per-item retry
contract of lines 104-135; the scheduler below (`dispatchItem`/`deliverDue`)
models the same lines as events on the shared event loop, where that `await`
suspends only `_processTask` itself and does not block the outer loop.  The
returned flag is `true` exactly when the JS function re-throws (terminal
failure). -/
def processTask (js : Nat → Int) (s : QS) (item : QueueItem) : QS × Bool :=
  let s1 : QS := { s with taskInvocations := s.taskInvocations + 1 }
  match item.outcomes item.retries with
  | Attempt.ok => (recordSuccess s1, false)
  | Attempt.err msg =>
      if isRetryable msg ∧ item.retries < item.maxRetries then
        (recordRetry js s1 item, false)
      else (recordTerminalFailure s1, true)

/-- The `.then` / `.catch` continuations attached to `_processTask` in
`processQueue` (lines 77-91): release the concurrency slot, then either reset
the consecutive-failure counter or bump it and possibly open the breaker. -/
def settleTask (s : QS) (failed : Bool) : QS :=
  let s1 : QS := { s with currentConcurrent := s.currentConcurrent - 1 }
  if failed then
    let s2 : QS := { s1 with consecutiveFailures := s1.consecutiveFailures + 1 }
    if s2.consecutiveFailures ≥ s2.maxConsecutiveFailures then openCircuitBreaker s2 else s2
  else { s1 with consecutiveFailures := 0 }

/-- Insert a backoff into the in-flight list keeping it ordered by firing
time, a later-armed timer after an earlier one with the same deadline —
JavaScript timers fire in (time, arming-order) order. -/
def insertBackoff (b : Backoff) : List Backoff → List Backoff
  | [] => [b]
  | x :: xs => if x.readyAt ≤ b.readyAt then x :: insertBackoff b xs else b :: x :: xs

/-- The retry branch of `_processTask` as seen by the event loop: by the time
the microtask phase ends, lines 122-125 have run (item retry count and
`totalRetries` incremented, delay computed and the `_wait` timer armed), and
the item sits in its backoff holding its concurrency slot; the `unshift` and
the `.then` continuation come only when the timer fires (`deliverGo`). -/
def beginBackoff (js : Nat → Int) (s : QS) (item : QueueItem) : QS :=
  { s with
      stats := { s.stats with totalRetries := s.stats.totalRetries + 1 },
      inflight := insertBackoff
        { item := { item with retries := item.retries + 1 },
          readyAt := s.now + getRetryDelay item.retries (js s.stats.totalRetries) }
        s.inflight }

/-- One dispatched item, event-level (lines 75-91 and 104-135): take the
concurrency slot and invoke the task; a terminal settlement (success or
non-retryable failure) runs `_processTask`'s branch and its
`.then`/`.catch` continuation in the same microtask phase, while a retryable
failure enters its backoff without releasing the slot. -/
def dispatchItem (js : Nat → Int) (s : QS) (item : QueueItem) : QS :=
  let s1 : QS := { s with
      currentConcurrent := s.currentConcurrent + 1,
      taskInvocations := s.taskInvocations + 1 }
  match item.outcomes item.retries with
  | Attempt.ok => settleTask (recordSuccess s1) false
  | Attempt.err msg =>
      if isRetryable msg ∧ item.retries < item.maxRetries then beginBackoff js s1 item
      else settleTask (recordTerminalFailure s1) true

/-- The inner dispatch loop of `processQueue` (lines 73-92): shift up to
`maxConcurrent - currentConcurrent` items synchronously, then let the
dispatched tasks settle (in dispatch order) in the following microtask
phase. -/
def dispatchBatch (js : Nat → Int) (s : QS) : QS :=
  let k := min (s.maxConcurrent - s.currentConcurrent) s.queue.length
  (s.queue.take k).foldl (dispatchItem js) { s with queue := s.queue.drop k }

/-- One iteration of the outer `while` of `processQueue` (lines 66-95): if the
breaker is open, wait 5000 ms and re-check; otherwise dispatch a batch and
poll again after 100 ms. -/
def pollStep (js : Nat → Int) (s : QS) : QS :=
  if s.circuitBreakerOpen then waitStep 5000 s
  else waitStep 100 (dispatchBatch js s)

/-- Fire the due backoff timers (`this.queue.unshift(queueItem)` at line 128
followed by the `.then` continuation at lines 78-81: slot release and
consecutive-failure reset).  The in-flight list is ordered by firing time, so
the walk stops at the first timer that is not yet due. -/
def deliverGo : List Backoff → QS → QS
  | [], s => s
  | b :: rest, s =>
      if b.readyAt ≤ s.now then
        deliverGo rest
          { s with
              queue := b.item :: s.queue,
              currentConcurrent := s.currentConcurrent - 1,
              consecutiveFailures := 0 }
      else { s with inflight := b :: rest }

/-- Apply every backoff timer that fired during the preceding wait.  In real
time the timers fire inside the wait; since nothing else runs between the end
of a wait and the next loop check, applying them here yields the same states
at every `queue.length` check and dispatch. -/
def deliverDue (s : QS) : QS :=
  deliverGo s.inflight { s with inflight := [] }

/-- The outer `while` of `processQueue`, fuelled; `none` means the fuel ran
out before the pending queue drained.  The drain check is
`this.queue.length > 0` (line 66): it sees only the pending queue, never the
in-flight backoffs, exactly as in the source. -/
def queueLoop (js : Nat → Int) : Nat → QS → Option QS
  | 0, s => if s.queue.isEmpty then some s else none
  | fuel + 1, s =>
      if s.queue.isEmpty then some s
      else queueLoop js fuel (deliverDue (pollStep js s))

/-- `processQueue` (lines 62-102): guard on `processing`, run the loop, clear
`processing`, then invoke `onComplete` (if registered) with `getStats`. -/
def processQueue (js : Nat → Int) (fuel : Nat) (s : QS) : Option QS :=
  if s.processing then some s
  else
    match queueLoop js fuel { s with processing := true } with
    | none => none
    | some s1 =>
        let s2 : QS := { s1 with processing := false }
        some (if s2.onComplete.isSome then
                { s2 with completeLog := s2.completeLog ++ [getStats s2] }
              else s2)

/-- Fresh manager with both observers registered and `tasks` enqueued at
priority 0 — the start state of one broadcast-style run. -/
def startState (tasks : List (Nat → Attempt)) : QS :=
  addBatch (setOnComplete (setOnProgress initState ()) ()) tasks 0

/-!  ## Embedding of `transferWithRetry` and the batch-transfer loop
      (`src/index.js`, lines 277-342 and 786-846). -/

/-- Observable behaviour of one call of the `transfer` primitive
(`src/index.js` lines 277-284): the returned promise either resolves to a
JSON value with `success` and `message` fields, or rejects with an error
message. -/
inductive TransferResp where
  | resolved (success : Bool) (message : String) : TransferResp
  | thrown (message : String) : TransferResp

/-- A value held in `transferWithRetry`'s `lastError` / `result` slot: either
a resolved API response or a caught `{ message }` object. -/
inductive TransferErr where
  | resp (success : Bool) (message : String) : TransferErr
  | exn (message : String) : TransferErr
  deriving Repr, DecidableEq

/-- The discriminated result of `transferWithRetry`: `{success, result,
attempts}` with the message payload of the carried result. -/
inductive TransferOutcome where
  | ok (message : String) (attempts : Nat) : TransferOutcome
  | fail (result : Option TransferErr) (attempts : Nat) : TransferOutcome
  deriving Repr, DecidableEq

/-- The transient-message classification of `transferWithRetry`
(`src/index.js` lines 307-311); case-sensitive `includes` checks. -/
def transferRetryable (msg : String) : Bool :=
  strContains msg "Internal database error" || strContains msg "timeout" ||
    strContains msg "Rate limit" || strContains msg "network guardians" ||
    strContains msg "syncing"

/-- The per-class backoff delay of `transferWithRetry` (lines 314-323), with
the `randomJitter` draw (`baseMs + Math.floor(Math.random() * 2000)`) passed
in as `jit`. -/
def transferErrorDelay (msg : String) (attempt : Nat) (jit : Int) : Int :=
  if strContains msg "Rate limit" then 15000 * attempt + jit
  else if strContains msg "Internal database error" then 12000 * attempt + jit
  else if strContains msg "network guardians" || strContains msg "syncing" then
    10000 * attempt + jit
  else 5000 * attempt + jit

/-- The `for attempt = 1..maxRetries` loop body of `transferWithRetry`
(lines 297-338).  `resp a` is the behaviour of the `transfer` call on attempt
`a`, `jit a` the jitter drawn on attempt `a`; `rem` is the remaining loop
iterations (`rem = maxRetries - attempt + 1`), and the second component of the
result is the total time slept. -/
def transferWithRetryGo (resp : Nat → TransferResp) (jit : Nat → Int) (maxRetries : Nat) :
    Nat → Nat → Option TransferErr → Int → TransferOutcome × Int
  | _, 0, lastError, slept => (TransferOutcome.fail lastError maxRetries, slept)
  | attempt, rem + 1, _lastError, slept =>
      match resp attempt with
      | TransferResp.resolved true msg => (TransferOutcome.ok msg attempt, slept)
      | TransferResp.resolved false msg =>
          if transferRetryable msg then
            if attempt < maxRetries then
              transferWithRetryGo resp jit maxRetries (attempt + 1) rem
                (some (TransferErr.resp false msg))
                (slept + transferErrorDelay msg attempt (jit attempt))
            else (TransferOutcome.fail (some (TransferErr.resp false msg)) attempt, slept)
          else (TransferOutcome.fail (some (TransferErr.resp false msg)) attempt, slept)
      | TransferResp.thrown msg =>
          if attempt < maxRetries then
            transferWithRetryGo resp jit maxRetries (attempt + 1) rem
              (some (TransferErr.exn msg)) (slept + 2000 * attempt)
          else (TransferOutcome.fail (some (TransferErr.exn msg)) maxRetries, slept)

/-- `transferWithRetry` (`src/index.js` lines 294-342). -/
def transferWithRetry (resp : Nat → TransferResp) (jit : Nat → Int)
    (maxRetries : Nat := 7) : TransferOutcome × Int :=
  transferWithRetryGo resp jit maxRetries 1 maxRetries none 0

/-- A wallet entry of the batch-transfer loop. -/
structure Wallet where
  address : String
  amount : Int

/-- A batch target: the wallet plus the behaviour of its `transfer` calls. -/
structure BatchTarget where
  wallet : Wallet
  resp : Nat → TransferResp

/-- The accumulator of the batch-transfer loop (`src/index.js` lines 778-846):
counters, the `failedWallets` side list `(idx, truncated address, error)`, the
mystery-box tallies, and (instrumentation) the addresses in dispatch order. -/
structure BatchRun where
  success : Nat
  failed : Nat
  failedWallets : List (Nat × String × String)
  totalMysteryXP : Nat
  mysteryCount : Nat
  attemptOrder : List String
  deriving Repr, DecidableEq

/-- The empty accumulator (lines 778-784). -/
def initBatchRun : BatchRun :=
  { success := 0, failed := 0, failedWallets := [], totalMysteryXP := 0,
    mysteryCount := 0, attemptOrder := [] }

/-- `result?.message || 'Unknown error'` (line 811): optional chaining plus
JavaScript falsiness of the empty string. -/
def errMessageOf : Option TransferErr → String
  | some (TransferErr.resp _ m) => if m = "" then "Unknown error" else m
  | some (TransferErr.exn m) => if m = "" then "Unknown error" else m
  | none => "Unknown error"

/-- One iteration of the batch-transfer `for` loop (lines 786-823): run
`transferWithRetry`, then either count the success and attempt the best-effort
mystery-box claim (`mystery i` is its observable reward, failures swallowed),
or count the failure and push the `(i+1, truncated address, reason)` record. -/
def batchStep (jit : Nat → Int) (mystery : Nat → Option Nat)
    (acc : BatchRun) (i : Nat) (t : BatchTarget) : BatchRun :=
  let acc1 : BatchRun := { acc with attemptOrder := acc.attemptOrder ++ [t.wallet.address] }
  match (transferWithRetry t.resp jit).1 with
  | TransferOutcome.ok _ _ =>
      let acc2 : BatchRun := { acc1 with success := acc1.success + 1 }
      match mystery i with
      | some xp =>
          { acc2 with totalMysteryXP := acc2.totalMysteryXP + xp,
                      mysteryCount := acc2.mysteryCount + 1 }
      | none => acc2
  | TransferOutcome.fail err _ =>
      { acc1 with failed := acc1.failed + 1,
                  failedWallets := acc1.failedWallets ++
                    [(i + 1, t.wallet.address.take 10 ++ "...", errMessageOf err)] }

/-- The whole batch-transfer loop (lines 786-846), folding `batchStep` over
the enumerated target list. -/
def batchTransferRun (jit : Nat → Int) (mystery : Nat → Option Nat)
    (targets : List BatchTarget) : BatchRun :=
  (targets.enum).foldl (fun acc p => batchStep jit mystery acc p.1 p.2) initBatchRun

/-- The failed-target records the run is expected to produce: one per target
whose `transferWithRetry` result is a failure, with its index and reason. -/
def expectedFailedWallets (jit : Nat → Int) (targets : List BatchTarget) :
    List (Nat × String × String) :=
  targets.enum.filterMap (fun p =>
    match (transferWithRetry p.2.resp jit).1 with
    | TransferOutcome.ok _ _ => none
    | TransferOutcome.fail err _ =>
        some (p.1 + 1, p.2.wallet.address.take 10 ++ "...", errMessageOf err))

/-!  ## Scenario fixtures shared by several claims -/

/-- Zero jitter stream (one possible draw of `Math.random()`). -/
def js0 : Nat → Int := fun _ => 0

/-!  ## C4: insertion order of `addToQueue` -/

/-- The (priority, arrival) sequence of a run of `addToQueue` calls: the
requested priorities tagged with arrival indices 0, 1, 2, …. -/
def priorityArrivals (ps : List Int) : List (Int × Nat) :=
  ps.zip (List.range ps.length)

/-- The queue produced by the source's insertion logic (lines 38-47) from a
sequence of priorities, at the (priority, arrival) level of detail. -/
def buildQueuePairs (ps : List Int) : List (Int × Nat) :=
  (priorityArrivals ps).foldl (queueInsertBy Prod.fst) []

/-- Rendering of the spec's words for C4 ("equivalent to a stable sort by
priority then arrival time"): stable insertion of each arrival after all
entries of priority ≥ its own — descending priority, ties in arrival order. -/
def stableInsertDesc (item : Int × Nat) : List (Int × Nat) → List (Int × Nat)
  | [] => [item]
  | x :: xs => if x.1 ≥ item.1 then x :: stableInsertDesc item xs else item :: x :: xs

/-- Rendering of the spec's words for C4: the stable sort itself, by
descending priority with ties in arrival (= insertion) order. -/
def stableSortDesc (l : List (Int × Nat)) : List (Int × Nat) :=
  l.foldl (fun q i => stableInsertDesc i q) []

/-!  ## C5: `transferWithRetry` stop conditions -/

/-- Behaviour of a transfer primitive that throws an unclassified exception on
the first attempt and would succeed on the second. -/
def c5Resp : Nat → TransferResp :=
  fun a => if a = 1 then TransferResp.thrown "boom" else TransferResp.resolved true "done"

/-!  ## C7: the batch-transfer run -/

/-- The failed-wallet records produced by the suffix of the loop that starts
at index `i0`. -/
def expectedFailedFrom (jit : Nat → Int) (i0 : Nat) (targets : List BatchTarget) :
    List (Nat × String × String) :=
  (List.enumFrom i0 targets).filterMap (fun p =>
    match (transferWithRetry p.2.resp jit).1 with
    | TransferOutcome.ok _ _ => none
    | TransferOutcome.fail err _ =>
        some (p.1 + 1, p.2.wallet.address.take 10 ++ "...", errMessageOf err))

/-- Sample batch targets: one success, one permanent resolved failure, one
transfer whose exception message is empty (exercising the
`'Unknown error'` fallback). -/
def c7Targets : List BatchTarget :=
  [⟨⟨"0xaaaaaaaaaaaaaaa", 1⟩, fun _ => TransferResp.resolved true "yes"⟩,
   ⟨⟨"0xbbbbbbbbbbbbbbb", 1⟩, fun _ => TransferResp.resolved false "Insufficient balance"⟩,
   ⟨⟨"0xccccccccccccccc", 1⟩, fun _ => TransferResp.thrown ""⟩]

/-- The inductive invariant of the outer `processQueue` loop, for a run that
starts with `n` enqueued items, fresh stats, and both observers registered:
the stats balance, every enqueued item is pending, in a backoff, or
terminally processed, each in-flight backoff holds exactly one concurrency
slot, `onProgress` has fired once per success, `onComplete` not yet, and only
retried items (retry count ≥ 1) can be in flight. -/
structure LoopInv (n : Nat) (s : QS) : Prop where
  sums : s.stats.totalSuccess + s.stats.totalFailed = s.stats.totalProcessed
  acct : s.stats.totalProcessed + s.queue.length + s.inflight.length = n
  cc : s.currentConcurrent = s.inflight.length
  comp_log : s.completeLog = []
  prog_set : s.onProgress.isSome = true
  comp_set : s.onComplete.isSome = true
  prog_count : s.progressLog.length = s.stats.totalSuccess
  inflight_retried : ∀ b ∈ s.inflight, 1 ≤ b.item.retries

/-!  ## Scenario fixtures for the queue claims -/

/-- C1 scenario: 12 always-succeeding tasks. -/
def c1Tasks : List (Nat → Attempt) := List.replicate 12 (fun _ => Attempt.ok)

/-- Final state of the C1 scenario run. -/
def c1Final : QS := (processQueue js0 20 (startState c1Tasks)).getD initState

/-- C6 scenario: one non-retryable failing task followed by three successes. -/
def c6Tasks : List (Nat → Attempt) :=
  (fun _ => Attempt.err "forbidden") :: List.replicate 3 (fun _ => Attempt.ok)

/-- Final state of the C6 scenario run. -/
def c6Final : QS := (processQueue js0 20 (startState c6Tasks)).getD initState

/-- C8 counterexample scenario: a single task failing with a non-retryable
error. -/
def c8Tasks : List (Nat → Attempt) := [fun _ => Attempt.err "forbidden"]

/-- Final state of the C8 counterexample run. -/
def c8Final : QS := (processQueue js0 20 (startState c8Tasks)).getD initState

/-- C8 witness scenario: one success, then one terminal failure. -/
def c8MixTasks : List (Nat → Attempt) :=
  [fun _ => Attempt.ok, fun _ => Attempt.err "forbidden"]

/-- Final state of the C8 witness run. -/
def c8MixFinal : QS := (processQueue js0 20 (startState c8MixTasks)).getD initState

/-- C9 scenario: a single task that always rejects with a "rate limit"
message. -/
def c9Tasks : List (Nat → Attempt) := [fun _ => Attempt.err "rate limit"]

/-- Final state of the C9 scenario run. -/
def c9Final : QS := (processQueue js0 20 (startState c9Tasks)).getD initState

/-- C1 counterexample scenario: one success and one task that always fails
with a retryable "timeout" message.  The drain check fires while the second
item is still waiting out its first backoff. -/
def c1LossTasks : List (Nat → Attempt) :=
  [fun _ => Attempt.ok, fun _ => Attempt.err "timeout"]

/-- Final state of the C1 counterexample run. -/
def c1LossFinal : QS := (processQueue js0 20 (startState c1LossTasks)).getD initState

/-- C1 redelivery scenario: one task that fails with "timeout" on its first
attempt and succeeds on the retry, followed by 50 immediate successes that
keep the pending queue non-empty past the 1000 ms backoff, so the retried
item is actually redelivered and completes. -/
def c1BusyTasks : List (Nat → Attempt) :=
  (fun n => if n = 0 then Attempt.err "timeout" else Attempt.ok)
    :: List.replicate 50 (fun _ => Attempt.ok)

/-- Final state of the C1 redelivery run. -/
def c1BusyFinal : QS := (processQueue js0 25 (startState c1BusyTasks)).getD initState

/-- C8 early-completion scenario: a single task that always fails with a
retryable "network" message; `onComplete` fires while the unit is still in
its first backoff, before any terminal completion. -/
def c8EarlyTasks : List (Nat → Attempt) := [fun _ => Attempt.err "network"]

/-- Final state of the C8 early-completion run. -/
def c8EarlyFinal : QS := (processQueue js0 20 (startState c8EarlyTasks)).getD initState

/-- A concrete retryable item: a task that always rejects with "timeout",
fresh from `addToQueue` (retries 0, maxRetries 3). -/
def c3Item : QueueItem := mkQueueItem (fun _ => Attempt.err "timeout") 0 0

/-!  ## C2: circuit breaker -/

/-- C2 scenario: ten consecutively failing (non-retryable) tasks followed by
two successes, with the default threshold `maxConsecutiveFailures = 10`. -/
def c2Tasks : List (Nat → Attempt) :=
  List.replicate 10 (fun _ => Attempt.err "forbidden") ++ List.replicate 2 (fun _ => Attempt.ok)

/-- The C2 run inside the processing loop. -/
def c2Start : QS := { startState c2Tasks with processing := true }

/-- State of the C2 run after `k` polls of the outer loop (each poll is
followed by delivery of any due backoff timers, exactly as in `queueLoop`;
in this all-terminal scenario no backoff is ever pending). -/
def c2At (k : Nat) : QS := (fun t => deliverDue (pollStep js0 t))^[k] c2Start

/-- Final state of the C2 scenario run. -/
def c2Final : QS := (processQueue js0 20 (startState c2Tasks)).getD initState

/-!  ## Lemmas and claim theorems -/

/-!  ## C10: `resetStats` frame -/

/-- C10. `resetStats` zeroes exactly the four stat counters; the pending
queue, the processing flag, the in-flight count, the concurrency and
failure-threshold constants, the circuit-breaker flag and deadline, the
registered `onProgress`/`onComplete` callbacks, the logs and the clock are all
unchanged. -/
theorem resetStats_zeroes_stats_and_changes_nothing_else {cb : Type} (s : QState cb) :
    (resetStats s).stats = ⟨0, 0, 0, 0⟩ ∧
    (resetStats s).queue = s.queue ∧
    (resetStats s).processing = s.processing ∧
    (resetStats s).currentConcurrent = s.currentConcurrent ∧
    (resetStats s).maxConcurrent = s.maxConcurrent ∧
    (resetStats s).consecutiveFailures = s.consecutiveFailures ∧
    (resetStats s).maxConsecutiveFailures = s.maxConsecutiveFailures ∧
    (resetStats s).circuitBreakerOpen = s.circuitBreakerOpen ∧
    (resetStats s).breakerCloseAt = s.breakerCloseAt ∧
    (resetStats s).onProgress = s.onProgress ∧
    (resetStats s).onComplete = s.onComplete ∧
    (resetStats s).progressLog = s.progressLog ∧
    (resetStats s).completeLog = s.completeLog ∧
    (resetStats s).now = s.now ∧
    (resetStats s).taskInvocations = s.taskInvocations ∧
    (resetStats s).inflight = s.inflight :=
  ⟨rfl, rfl, rfl, rfl, rfl, rfl, rfl, rfl, rfl, rfl, rfl, rfl, rfl, rfl, rfl, rfl⟩

lemma findIdx?_cons_zero (p : α → Bool) (a : α) (l : List α) :
    (a :: l).findIdx? p = if p a then some 0 else (l.findIdx? p).map (· + 1) := by
  simp [List.findIdx?_cons]

lemma mem_stableInsertDesc {item x : Int × Nat} :
    ∀ {q : List (Int × Nat)}, x ∈ stableInsertDesc item q → x = item ∨ x ∈ q := by
  intro q
  induction q with
  | nil => intro h; simp [stableInsertDesc] at h; exact Or.inl h
  | cons y ys ih =>
      intro h
      by_cases hy : y.1 ≥ item.1
      · simp [stableInsertDesc, hy] at h
        rcases h with h | h
        · exact Or.inr (by simp [h])
        · rcases ih h with h1 | h1
          · exact Or.inl h1
          · exact Or.inr (by simp [h1])
      · simp [stableInsertDesc, hy] at h
        rcases h with h | h | h
        · exact Or.inl h
        · exact Or.inr (by simp [h])
        · exact Or.inr (by simp [h])

lemma queueInsertBy_eq_stableInsertDesc :
    ∀ (q : List (Int × Nat)) (item : Int × Nat),
      (∀ x ∈ q, 0 ≤ x.1) → 0 ≤ item.1 →
      queueInsertBy Prod.fst q item = stableInsertDesc item q := by
  intro q item
  induction q with
  | nil =>
      intro _ _
      unfold queueInsertBy stableInsertDesc
      split <;> simp [List.findIdx?]
  | cons x xs ih =>
      intro hq hi
      rcases lt_or_eq_of_le hi with hpos | hzero
      · -- item.1 > 0: splice before the first strictly smaller priority
        by_cases hx : x.1 < item.1
        · unfold queueInsertBy stableInsertDesc
          rw [if_pos hpos, findIdx?_cons_zero, if_pos (by simpa using hx),
            if_neg (by omega)]
          simp
        · have hxge : x.1 ≥ item.1 := by omega
          have hrec : queueInsertBy Prod.fst xs item = stableInsertDesc item xs :=
            ih (fun y hy => hq y (List.mem_cons_of_mem x hy)) hi
          unfold queueInsertBy at hrec ⊢
          unfold stableInsertDesc
          rw [if_pos hpos, findIdx?_cons_zero, if_neg (by simp; omega), if_pos hxge]
          rw [if_pos hpos] at hrec
          cases hfind : List.findIdx? (fun y => decide (y.1 < item.1)) xs with
          | none => rw [hfind] at hrec; simpa [hfind] using hrec
          | some i => rw [hfind] at hrec; simpa [hfind] using hrec
      · -- item.1 = 0: pushed to the back in both versions
        have hx0 : 0 ≤ x.1 := hq x (List.mem_cons_self x xs)
        have hrec : queueInsertBy Prod.fst xs item = stableInsertDesc item xs :=
          ih (fun y hy => hq y (List.mem_cons_of_mem x hy)) hi
        unfold queueInsertBy at hrec ⊢
        unfold stableInsertDesc
        rw [if_neg (by omega), if_pos (by omega)]
        rw [if_neg (by omega)] at hrec
        simp [hrec]

lemma fold_queueInsertBy_eq_fold_stableInsertDesc :
    ∀ (l q : List (Int × Nat)), (∀ x ∈ q, 0 ≤ x.1) → (∀ x ∈ l, 0 ≤ x.1) →
      l.foldl (queueInsertBy Prod.fst) q = l.foldl (fun acc i => stableInsertDesc i acc) q := by
  intro l
  induction l with
  | nil => intro q _ _; rfl
  | cons a as ih =>
      intro q hq hl
      have ha : 0 ≤ a.1 := hl a (List.mem_cons_self a as)
      have hstep := queueInsertBy_eq_stableInsertDesc q a hq ha
      simp only [List.foldl_cons, hstep]
      exact ih (stableInsertDesc a q)
        (fun x hx => (mem_stableInsertDesc hx).elim (fun h => h ▸ ha) (hq x))
        (fun x hx => hl x (List.mem_cons_of_mem a hx))

/-- C4, counterexample. With the integer priorities `[-1, 0]` the code's
queue keeps the arrival order `[(-1,0), (0,1)]` (both priorities are ≤ 0 and
are pushed to the back), while a stable sort by descending priority would give
`[(0,1), (-1,0)]` — so for arbitrary integer priorities the queue is not the
stable descending sort, and it is not sorted by descending priority. -/
theorem addToQueue_negative_priority_not_sorted :
    buildQueuePairs [-1, 0] = [(-1, 0), (0, 1)] ∧
    stableSortDesc (priorityArrivals [-1, 0]) = [(0, 1), (-1, 0)] ∧
    buildQueuePairs [-1, 0] ≠ stableSortDesc (priorityArrivals [-1, 0]) ∧
    ((addToQueue (addToQueue (startState []) (fun _ => Attempt.ok) (-1))
        (fun _ => Attempt.ok) 0).queue.map QueueItem.priority) = [-1, 0] := by
  refine ⟨by decide, by decide, by decide, rfl⟩

/-- C4, amended. For every sequence of `addToQueue` calls whose priorities
are all nonnegative (the only priorities the code's two insertion branches
order correctly), the resulting queue is exactly the stable sort of the
inserted items by descending priority, ties in insertion order.  With
negative priorities the property fails (see the counterexample): a negative
priority is pushed to the back even when smaller-priority items precede it. -/
theorem addToQueue_stable_priority_order (ps : List Int) (h : ∀ p ∈ ps, 0 ≤ p) :
    buildQueuePairs ps = stableSortDesc (priorityArrivals ps) := by
  unfold buildQueuePairs stableSortDesc
  refine fold_queueInsertBy_eq_fold_stableInsertDesc _ [] (by simp) ?_
  intro x hx
  exact h x.1 (List.of_mem_zip hx).1

/-- Witness for C4's amended theorem at the concrete priority sequence
`[2, 0, 1, 2]`. -/
theorem addToQueue_stable_priority_order_witness :
    (∀ p ∈ [(2 : Int), 0, 1, 2], 0 ≤ p) ∧
    buildQueuePairs [2, 0, 1, 2] = stableSortDesc (priorityArrivals [2, 0, 1, 2]) :=
  ⟨by decide, addToQueue_stable_priority_order [2, 0, 1, 2] (by decide)⟩

/-- C5, counterexample. `"boom"` matches none of the transient keyword
classes, yet after the first attempt throws `"boom"` the loop performs a
second attempt (which succeeds): the `catch` branch of `transferWithRetry`
(lines 331-337) retries every thrown error unconditionally, so an
unknown/unclassified exception does not stop the loop as the claim states. -/
theorem transferWithRetry_retries_unclassified_exception :
    transferRetryable "boom" = false ∧
    transferWithRetry c5Resp js0 7 = (TransferOutcome.ok "done" 2, 2000) := by
  constructor
  · decide
  · decide

lemma transferWithRetryGo_thrown_all :
    ∀ (resp : Nat → TransferResp) (jit : Nat → Int) (maxRetries : Nat) (m : Nat → String),
      (∀ a, resp a = TransferResp.thrown (m a)) →
      ∀ (rem attempt : Nat) (lastErr : Option TransferErr) (slept : Int),
        attempt + rem = maxRetries + 1 → 1 ≤ attempt → attempt ≤ maxRetries →
        (transferWithRetryGo resp jit maxRetries attempt rem lastErr slept).1
          = TransferOutcome.fail (some (TransferErr.exn (m maxRetries))) maxRetries := by
  intro resp jit maxRetries m hm
  intro rem
  induction rem with
  | zero => intro attempt lastErr slept h1 _ h3; omega
  | succ r ih =>
      intro attempt lastErr slept h1 h2 h3
      simp only [transferWithRetryGo, hm]
      by_cases hlt : attempt < maxRetries
      · rw [if_pos hlt]
        exact ih (attempt + 1) _ _ (by omega) (by omega) (by omega)
      · rw [if_neg hlt]
        have ha : attempt = maxRetries := by omega
        rw [ha]

/-- C5, amended. The loop performs no further attempt after an attempt
*resolves* to a failure whose message matches none of the named transient
classes — it returns at once a failure result carrying that response and the
attempt count — but a *thrown* exception (including an unclassified one, see
the counterexample) is always retried, and when every attempt throws, the
loop runs the full attempt budget and returns a failure carrying the last
exception and the attempt count `maxRetries`. -/
theorem transferWithRetry_stop_conditions :
    (∀ (resp : Nat → TransferResp) (jit : Nat → Int)
        (maxRetries attempt rem : Nat) (lastErr : Option TransferErr) (slept : Int)
        (msg : String),
      resp attempt = TransferResp.resolved false msg →
      transferRetryable msg = false →
      transferWithRetryGo resp jit maxRetries attempt (rem + 1) lastErr slept
        = (TransferOutcome.fail (some (TransferErr.resp false msg)) attempt, slept)) ∧
    (∀ (resp : Nat → TransferResp) (jit : Nat → Int) (maxRetries : Nat) (m : Nat → String),
      1 ≤ maxRetries → (∀ a, resp a = TransferResp.thrown (m a)) →
      (transferWithRetry resp jit maxRetries).1
        = TransferOutcome.fail (some (TransferErr.exn (m maxRetries))) maxRetries) := by
  constructor
  · intro resp jit maxRetries attempt rem lastErr slept msg hresp hclass
    simp only [transferWithRetryGo, hresp, hclass]
    simp
  · intro resp jit maxRetries m h1 hm
    exact transferWithRetryGo_thrown_all resp jit maxRetries m hm maxRetries 1 none 0
      (by omega) (by omega) (by omega)

/-- Witness for C5's amended theorem: a permanent resolved failure
(`"Insufficient balance"`) stops the loop at attempt 1, and a transfer that
always throws `"down"` exhausts the budget of 3 attempts. -/
theorem transferWithRetry_stop_conditions_witness :
    transferWithRetryGo (fun _ => TransferResp.resolved false "Insufficient balance") js0 7 1 7 none 0
      = (TransferOutcome.fail (some (TransferErr.resp false "Insufficient balance")) 1, 0) ∧
    (transferWithRetry (fun _ => TransferResp.thrown "down") js0 3).1
      = TransferOutcome.fail (some (TransferErr.exn "down")) 3 :=
  ⟨transferWithRetry_stop_conditions.1 _ js0 7 1 6 none 0 _ rfl (by decide),
   transferWithRetry_stop_conditions.2 _ js0 3 (fun _ => "down") (by decide) (fun _ => rfl)⟩

lemma batchStep_attemptOrder (jit : Nat → Int) (mystery : Nat → Option Nat)
    (acc : BatchRun) (i : Nat) (t : BatchTarget) :
    (batchStep jit mystery acc i t).attemptOrder
      = acc.attemptOrder ++ [t.wallet.address] := by
  simp only [batchStep]
  cases h : (transferWithRetry t.resp jit).1 with
  | ok m a => cases mystery i <;> rfl
  | fail e a => rfl

lemma batchStep_success_failed (jit : Nat → Int) (mystery : Nat → Option Nat)
    (acc : BatchRun) (i : Nat) (t : BatchTarget) :
    (batchStep jit mystery acc i t).success + (batchStep jit mystery acc i t).failed
      = acc.success + acc.failed + 1 := by
  simp only [batchStep]
  cases h : (transferWithRetry t.resp jit).1 with
  | ok m a => cases mystery i <;> simp <;> omega
  | fail e a => simp; omega

lemma batchStep_failedWallets (jit : Nat → Int) (mystery : Nat → Option Nat)
    (acc : BatchRun) (i : Nat) (t : BatchTarget) :
    (batchStep jit mystery acc i t).failedWallets
      = acc.failedWallets ++
        (match (transferWithRetry t.resp jit).1 with
         | TransferOutcome.ok _ _ => ([] : List (Nat × String × String))
         | TransferOutcome.fail e _ =>
             [(i + 1, t.wallet.address.take 10 ++ "...", errMessageOf e)]) := by
  simp only [batchStep]
  cases h : (transferWithRetry t.resp jit).1 with
  | ok m a => cases mystery i <;> simp
  | fail e a => rfl

lemma batchFold_spec (jit : Nat → Int) (mystery : Nat → Option Nat) :
    ∀ (ts : List BatchTarget) (i0 : Nat) (acc : BatchRun),
      ((List.enumFrom i0 ts).foldl (fun a p => batchStep jit mystery a p.1 p.2) acc).attemptOrder
        = acc.attemptOrder ++ ts.map (fun t => t.wallet.address) ∧
      ((List.enumFrom i0 ts).foldl (fun a p => batchStep jit mystery a p.1 p.2) acc).success
          + ((List.enumFrom i0 ts).foldl (fun a p => batchStep jit mystery a p.1 p.2) acc).failed
        = acc.success + acc.failed + ts.length ∧
      ((List.enumFrom i0 ts).foldl (fun a p => batchStep jit mystery a p.1 p.2) acc).failedWallets
        = acc.failedWallets ++ expectedFailedFrom jit i0 ts := by
  intro ts
  induction ts with
  | nil => intro i0 acc; simp [List.enumFrom, expectedFailedFrom]
  | cons t ts ih =>
      intro i0 acc
      have hstep : List.enumFrom i0 (t :: ts) = (i0, t) :: List.enumFrom (i0 + 1) ts := rfl
      rw [hstep]
      simp only [List.foldl_cons]
      have hexp : expectedFailedFrom jit i0 (t :: ts)
          = (match (transferWithRetry t.resp jit).1 with
             | TransferOutcome.ok _ _ => ([] : List (Nat × String × String))
             | TransferOutcome.fail e _ =>
                 [(i0 + 1, t.wallet.address.take 10 ++ "...", errMessageOf e)])
            ++ expectedFailedFrom jit (i0 + 1) ts := by
        unfold expectedFailedFrom
        rw [hstep]
        cases h : (transferWithRetry t.resp jit).1 <;> simp [List.filterMap_cons, h]
      obtain ⟨o1, o2, o3⟩ := ih (i0 + 1) (batchStep jit mystery acc i0 t)
      refine ⟨?_, ?_, ?_⟩
      · rw [o1, batchStep_attemptOrder]
        simp
      · rw [o2, batchStep_success_failed]
        simp only [List.length_cons]
        omega
      · rw [o3, batchStep_failedWallets, hexp]
        simp [List.append_assoc]

/-- C7. For every non-empty target list, the batch-transfer run calls
`transferWithRetry` for every target exactly once, in the list's input order;
a failing item never aborts the run; and the final summary satisfies
`success + failed = number of targets`, with every failed target recorded
(with its index and error reason) in the `failedWallets` side list. -/
theorem batchTransferRun_full_summary (jit : Nat → Int) (mystery : Nat → Option Nat)
    (targets : List BatchTarget) (_hne : targets ≠ []) :
    (batchTransferRun jit mystery targets).attemptOrder
      = targets.map (fun t => t.wallet.address) ∧
    (batchTransferRun jit mystery targets).success
        + (batchTransferRun jit mystery targets).failed = targets.length ∧
    (batchTransferRun jit mystery targets).failedWallets
      = expectedFailedWallets jit targets := by
  have hbase := batchFold_spec jit mystery targets 0 initBatchRun
  have henum : targets.enum = List.enumFrom 0 targets := rfl
  have hexp : expectedFailedWallets jit targets = expectedFailedFrom jit 0 targets := rfl
  unfold batchTransferRun
  rw [henum, hexp]
  refine ⟨?_, ?_, ?_⟩
  · rw [hbase.1]; simp [initBatchRun]
  · rw [hbase.2.1]; simp [initBatchRun]
  · rw [hbase.2.2]; simp [initBatchRun]

/-- Witness for C7 at the three sample targets. -/
theorem batchTransferRun_full_summary_witness :
    (batchTransferRun js0 (fun _ => none) c7Targets).attemptOrder
      = c7Targets.map (fun t => t.wallet.address) ∧
    (batchTransferRun js0 (fun _ => none) c7Targets).success
        + (batchTransferRun js0 (fun _ => none) c7Targets).failed = c7Targets.length ∧
    (batchTransferRun js0 (fun _ => none) c7Targets).failedWallets
      = expectedFailedWallets js0 c7Targets :=
  batchTransferRun_full_summary js0 (fun _ => none) c7Targets (List.cons_ne_nil _ _)

/-!  ## Frame and accounting lemmas for the queue interpreter -/

lemma waitStep_spec (ms : Int) (s : QS) :
    (waitStep ms s).queue = s.queue ∧
    (waitStep ms s).stats = s.stats ∧
    (waitStep ms s).progressLog = s.progressLog ∧
    (waitStep ms s).completeLog = s.completeLog ∧
    (waitStep ms s).onProgress = s.onProgress ∧
    (waitStep ms s).onComplete = s.onComplete ∧
    (waitStep ms s).currentConcurrent = s.currentConcurrent ∧
    (waitStep ms s).processing = s.processing ∧
    (waitStep ms s).maxConcurrent = s.maxConcurrent ∧
    (waitStep ms s).maxConsecutiveFailures = s.maxConsecutiveFailures ∧
    (waitStep ms s).taskInvocations = s.taskInvocations ∧
    (waitStep ms s).now = s.now + ms ∧
    (waitStep ms s).inflight = s.inflight := by
  unfold waitStep
  cases h : s.breakerCloseAt with
  | none => simp [h]
  | some t =>
      simp only [h]
      split <;> simp

lemma branch_ok_spec (s : QS) :
    (settleTask (recordSuccess s) false).queue = s.queue ∧
    (settleTask (recordSuccess s) false).stats.totalProcessed = s.stats.totalProcessed + 1 ∧
    (settleTask (recordSuccess s) false).stats.totalSuccess = s.stats.totalSuccess + 1 ∧
    (settleTask (recordSuccess s) false).stats.totalFailed = s.stats.totalFailed ∧
    (settleTask (recordSuccess s) false).stats.totalRetries = s.stats.totalRetries ∧
    (settleTask (recordSuccess s) false).currentConcurrent = s.currentConcurrent - 1 ∧
    (settleTask (recordSuccess s) false).consecutiveFailures = 0 ∧
    (settleTask (recordSuccess s) false).circuitBreakerOpen = s.circuitBreakerOpen ∧
    (settleTask (recordSuccess s) false).completeLog = s.completeLog ∧
    (settleTask (recordSuccess s) false).onProgress = s.onProgress ∧
    (settleTask (recordSuccess s) false).onComplete = s.onComplete ∧
    (settleTask (recordSuccess s) false).processing = s.processing ∧
    (settleTask (recordSuccess s) false).maxConcurrent = s.maxConcurrent ∧
    (settleTask (recordSuccess s) false).maxConsecutiveFailures = s.maxConsecutiveFailures ∧
    (settleTask (recordSuccess s) false).now = s.now ∧
    (settleTask (recordSuccess s) false).progressLog.length
      = s.progressLog.length + (if s.onProgress.isSome then 1 else 0) ∧
    (settleTask (recordSuccess s) false).inflight = s.inflight := by
  unfold settleTask recordSuccess
  by_cases hp : s.onProgress.isSome <;> simp [hp]

lemma branch_fail_spec (s : QS) :
    (settleTask (recordTerminalFailure s) true).queue = s.queue ∧
    (settleTask (recordTerminalFailure s) true).stats.totalProcessed = s.stats.totalProcessed + 1 ∧
    (settleTask (recordTerminalFailure s) true).stats.totalSuccess = s.stats.totalSuccess ∧
    (settleTask (recordTerminalFailure s) true).stats.totalFailed = s.stats.totalFailed + 1 ∧
    (settleTask (recordTerminalFailure s) true).stats.totalRetries = s.stats.totalRetries ∧
    (settleTask (recordTerminalFailure s) true).currentConcurrent = s.currentConcurrent - 1 ∧
    (settleTask (recordTerminalFailure s) true).consecutiveFailures = s.consecutiveFailures + 1 ∧
    (settleTask (recordTerminalFailure s) true).completeLog = s.completeLog ∧
    (settleTask (recordTerminalFailure s) true).onProgress = s.onProgress ∧
    (settleTask (recordTerminalFailure s) true).onComplete = s.onComplete ∧
    (settleTask (recordTerminalFailure s) true).processing = s.processing ∧
    (settleTask (recordTerminalFailure s) true).maxConcurrent = s.maxConcurrent ∧
    (settleTask (recordTerminalFailure s) true).maxConsecutiveFailures = s.maxConsecutiveFailures ∧
    (settleTask (recordTerminalFailure s) true).progressLog = s.progressLog ∧
    (settleTask (recordTerminalFailure s) true).now = s.now ∧
    (settleTask (recordTerminalFailure s) true).inflight = s.inflight ∧
    (s.consecutiveFailures + 1 ≥ s.maxConsecutiveFailures →
      (settleTask (recordTerminalFailure s) true).circuitBreakerOpen = true ∧
      (settleTask (recordTerminalFailure s) true).breakerCloseAt = some (s.now + 30000)) ∧
    (¬ s.consecutiveFailures + 1 ≥ s.maxConsecutiveFailures →
      (settleTask (recordTerminalFailure s) true).circuitBreakerOpen = s.circuitBreakerOpen ∧
      (settleTask (recordTerminalFailure s) true).breakerCloseAt = s.breakerCloseAt) := by
  unfold settleTask recordTerminalFailure openCircuitBreaker
  by_cases hcf : s.consecutiveFailures + 1 ≥ s.maxConsecutiveFailures <;> simp [hcf]

lemma insertBackoff_length (b : Backoff) :
    ∀ (l : List Backoff), (insertBackoff b l).length = l.length + 1 := by
  intro l
  induction l with
  | nil => rfl
  | cons x xs ih =>
      unfold insertBackoff
      split <;> simp [ih]

lemma mem_insertBackoff {b x : Backoff} :
    ∀ {l : List Backoff}, x ∈ insertBackoff b l → x = b ∨ x ∈ l := by
  intro l
  induction l with
  | nil => intro h; simp [insertBackoff] at h; exact Or.inl h
  | cons y ys ih =>
      intro h
      unfold insertBackoff at h
      split at h
      · rcases List.mem_cons.mp h with h1 | h1
        · exact Or.inr (by simp [h1])
        · rcases ih h1 with h2 | h2
          · exact Or.inl h2
          · exact Or.inr (by simp [h2])
      · rcases List.mem_cons.mp h with h1 | h1
        · exact Or.inl h1
        · exact Or.inr h1

lemma dispatchItem_spec (js : Nat → Int) (s : QS) (item : QueueItem) :
    (dispatchItem js s item).stats.totalProcessed + (dispatchItem js s item).inflight.length
      = s.stats.totalProcessed + s.inflight.length + 1 ∧
    (dispatchItem js s item).stats.totalSuccess + (dispatchItem js s item).stats.totalFailed
        + s.stats.totalProcessed
      = (dispatchItem js s item).stats.totalProcessed
        + (s.stats.totalSuccess + s.stats.totalFailed) ∧
    (dispatchItem js s item).queue = s.queue ∧
    (dispatchItem js s item).currentConcurrent + s.inflight.length
      = s.currentConcurrent + (dispatchItem js s item).inflight.length ∧
    (dispatchItem js s item).completeLog = s.completeLog ∧
    (dispatchItem js s item).onProgress = s.onProgress ∧
    (dispatchItem js s item).onComplete = s.onComplete ∧
    (dispatchItem js s item).processing = s.processing ∧
    (dispatchItem js s item).maxConcurrent = s.maxConcurrent ∧
    (dispatchItem js s item).maxConsecutiveFailures = s.maxConsecutiveFailures ∧
    (dispatchItem js s item).now = s.now ∧
    (s.onProgress.isSome = true →
      (dispatchItem js s item).progressLog.length + s.stats.totalSuccess
        = s.progressLog.length + (dispatchItem js s item).stats.totalSuccess) ∧
    (∀ b ∈ (dispatchItem js s item).inflight, b ∈ s.inflight ∨ 1 ≤ b.item.retries) := by
  unfold dispatchItem
  cases h : item.outcomes item.retries with
  | ok =>
      dsimp only
      obtain ⟨b1, b2, b3, b4, b5, b6, b7, b8, b9, b10, b11, b12, b13, b14, b15, b16, b17⟩ :=
        branch_ok_spec { s with
          currentConcurrent := s.currentConcurrent + 1,
          taskInvocations := s.taskInvocations + 1 }
      dsimp only at b1 b2 b3 b4 b5 b6 b7 b8 b9 b10 b11 b12 b13 b14 b15 b16 b17
      have hinf := congrArg List.length b17
      refine ⟨by omega, by omega, b1, by omega, b9, b10, b11, b12, b13, b14, b15, ?_, ?_⟩
      · intro hp
        rw [hp] at b16
        simp only [if_true] at b16
        omega
      · intro b hb
        rw [b17] at hb
        exact Or.inl hb
  | err msg =>
      dsimp only
      by_cases hr : isRetryable msg ∧ item.retries < item.maxRetries
      · rw [if_pos hr]
        unfold beginBackoff
        dsimp only
        have hlen := insertBackoff_length
          { item := { item with retries := item.retries + 1 },
            readyAt := s.now + getRetryDelay item.retries (js s.stats.totalRetries) }
          s.inflight
        refine ⟨by rw [hlen]; omega, by omega, rfl, by rw [hlen]; omega, rfl, rfl, rfl, rfl,
          rfl, rfl, rfl, ?_, ?_⟩
        · intro _; omega
        · intro b hb
          rcases mem_insertBackoff hb with h1 | h1
          · right; rw [h1]; simp
          · exact Or.inl h1
      · rw [if_neg hr]
        obtain ⟨b1, b2, b3, b4, b5, b6, b7, b8, b9, b10, b11, b12, b13, b14, b15, b16, b17, b18⟩ :=
          branch_fail_spec { s with
            currentConcurrent := s.currentConcurrent + 1,
            taskInvocations := s.taskInvocations + 1 }
        dsimp only at b1 b2 b3 b4 b5 b6 b7 b8 b9 b10 b11 b12 b13 b14 b15 b16 b17 b18
        have hinf := congrArg List.length b16
        have hpl := congrArg List.length b14
        refine ⟨by omega, by omega, b1, by omega, b8, b9, b10, b11, b12, b13, b15, ?_, ?_⟩
        · intro _; omega
        · intro b hb
          rw [b16] at hb
          exact Or.inl hb

lemma dispatchRun_spec (js : Nat → Int) :
    ∀ (batch : List QueueItem) (s : QS),
    (batch.foldl (dispatchItem js) s).stats.totalProcessed
        + (batch.foldl (dispatchItem js) s).inflight.length
      = s.stats.totalProcessed + s.inflight.length + batch.length ∧
    (batch.foldl (dispatchItem js) s).stats.totalSuccess
        + (batch.foldl (dispatchItem js) s).stats.totalFailed + s.stats.totalProcessed
      = (batch.foldl (dispatchItem js) s).stats.totalProcessed
        + (s.stats.totalSuccess + s.stats.totalFailed) ∧
    (batch.foldl (dispatchItem js) s).queue = s.queue ∧
    (batch.foldl (dispatchItem js) s).currentConcurrent + s.inflight.length
      = s.currentConcurrent + (batch.foldl (dispatchItem js) s).inflight.length ∧
    (batch.foldl (dispatchItem js) s).completeLog = s.completeLog ∧
    (batch.foldl (dispatchItem js) s).onProgress = s.onProgress ∧
    (batch.foldl (dispatchItem js) s).onComplete = s.onComplete ∧
    (batch.foldl (dispatchItem js) s).processing = s.processing ∧
    (batch.foldl (dispatchItem js) s).maxConcurrent = s.maxConcurrent ∧
    (batch.foldl (dispatchItem js) s).maxConsecutiveFailures = s.maxConsecutiveFailures ∧
    (batch.foldl (dispatchItem js) s).now = s.now ∧
    (s.onProgress.isSome = true →
      (batch.foldl (dispatchItem js) s).progressLog.length + s.stats.totalSuccess
        = s.progressLog.length + (batch.foldl (dispatchItem js) s).stats.totalSuccess) ∧
    (∀ b ∈ (batch.foldl (dispatchItem js) s).inflight,
      b ∈ s.inflight ∨ 1 ≤ b.item.retries) := by
  intro batch
  induction batch with
  | nil =>
      intro s
      exact ⟨by simp, by simp only [List.foldl_nil]; omega, rfl, rfl, rfl, rfl, rfl, rfl,
        rfl, rfl, rfl, fun _ => rfl, fun b hb => Or.inl hb⟩
  | cons item more ih =>
      intro s
      obtain ⟨a1, a2, a3, a4, a5, a6, a7, a8, a9, a10, a11, a12, a13⟩ := dispatchItem_spec js s item
      obtain ⟨c1, c2, c3, c4, c5, c6, c7, c8, c9, c10, c11, c12, c13⟩ :=
        ih (dispatchItem js s item)
      have hfold : (item :: more).foldl (dispatchItem js) s
          = more.foldl (dispatchItem js) (dispatchItem js s item) := rfl
      rw [hfold]
      refine ⟨?_, ?_, by rw [c3, a3], ?_, by rw [c5, a5], by rw [c6, a6], by rw [c7, a7],
        by rw [c8, a8], by rw [c9, a9], by rw [c10, a10], by rw [c11, a11], ?_, ?_⟩
      · simp only [List.length_cons]; omega
      · omega
      · omega
      · intro hp
        have hp2 : (dispatchItem js s item).onProgress.isSome = true := by rw [a6]; exact hp
        have := c12 hp2
        have := a12 hp
        omega
      · intro b hb
        rcases c13 b hb with h1 | h1
        · rcases a13 b h1 with h2 | h2
          · exact Or.inl h2
          · exact Or.inr h2
        · exact Or.inr h1

lemma dispatchBatch_spec (js : Nat → Int) (s : QS) :
    (dispatchBatch js s).stats.totalProcessed + (dispatchBatch js s).queue.length
        + (dispatchBatch js s).inflight.length
      = s.stats.totalProcessed + s.queue.length + s.inflight.length ∧
    (dispatchBatch js s).stats.totalSuccess + (dispatchBatch js s).stats.totalFailed
        + s.stats.totalProcessed
      = (dispatchBatch js s).stats.totalProcessed
        + (s.stats.totalSuccess + s.stats.totalFailed) ∧
    (dispatchBatch js s).currentConcurrent + s.inflight.length
      = s.currentConcurrent + (dispatchBatch js s).inflight.length ∧
    (dispatchBatch js s).completeLog = s.completeLog ∧
    (dispatchBatch js s).onProgress = s.onProgress ∧
    (dispatchBatch js s).onComplete = s.onComplete ∧
    (dispatchBatch js s).processing = s.processing ∧
    (dispatchBatch js s).maxConcurrent = s.maxConcurrent ∧
    (dispatchBatch js s).maxConsecutiveFailures = s.maxConsecutiveFailures ∧
    (dispatchBatch js s).now = s.now ∧
    (s.onProgress.isSome = true →
      (dispatchBatch js s).progressLog.length + s.stats.totalSuccess
        = s.progressLog.length + (dispatchBatch js s).stats.totalSuccess) ∧
    (∀ b ∈ (dispatchBatch js s).inflight, b ∈ s.inflight ∨ 1 ≤ b.item.retries) := by
  unfold dispatchBatch
  dsimp only
  have hkle : min (s.maxConcurrent - s.currentConcurrent) s.queue.length ≤ s.queue.length :=
    min_le_right _ _
  have hlen : (s.queue.take (min (s.maxConcurrent - s.currentConcurrent) s.queue.length)).length
      = min (s.maxConcurrent - s.currentConcurrent) s.queue.length := by
    rw [List.length_take]; omega
  have hdrop : (s.queue.drop (min (s.maxConcurrent - s.currentConcurrent) s.queue.length)).length
      = s.queue.length - min (s.maxConcurrent - s.currentConcurrent) s.queue.length := by
    rw [List.length_drop]
  obtain ⟨r1, r2, r3, r4, r5, r6, r7, r8, r9, r10, r11, r12, r13⟩ :=
    dispatchRun_spec js
      (s.queue.take (min (s.maxConcurrent - s.currentConcurrent) s.queue.length))
      { s with queue := s.queue.drop (min (s.maxConcurrent - s.currentConcurrent) s.queue.length) }
  dsimp only at r1 r2 r3 r4 r5 r6 r7 r8 r9 r10 r11 r12 r13
  rw [hlen] at r1
  have hq := congrArg List.length r3
  rw [hdrop] at hq
  refine ⟨by omega, by omega, by omega, r5, r6, r7, r8, r9, r10, r11, ?_, r13⟩
  intro hp
  have := r12 hp
  omega

lemma deliverGo_spec :
    ∀ (l : List Backoff) (s : QS), s.inflight = [] → l.length ≤ s.currentConcurrent →
    (deliverGo l s).stats = s.stats ∧
    (deliverGo l s).queue.length + (deliverGo l s).inflight.length
      = s.queue.length + l.length ∧
    (deliverGo l s).currentConcurrent + l.length
      = s.currentConcurrent + (deliverGo l s).inflight.length ∧
    (deliverGo l s).completeLog = s.completeLog ∧
    (deliverGo l s).progressLog = s.progressLog ∧
    (deliverGo l s).onProgress = s.onProgress ∧
    (deliverGo l s).onComplete = s.onComplete ∧
    (deliverGo l s).processing = s.processing ∧
    (deliverGo l s).maxConcurrent = s.maxConcurrent ∧
    (deliverGo l s).maxConsecutiveFailures = s.maxConsecutiveFailures ∧
    (deliverGo l s).now = s.now ∧
    (deliverGo l s).taskInvocations = s.taskInvocations ∧
    (deliverGo l s).circuitBreakerOpen = s.circuitBreakerOpen ∧
    (deliverGo l s).breakerCloseAt = s.breakerCloseAt ∧
    (∀ b ∈ (deliverGo l s).inflight, b ∈ l) := by
  intro l
  induction l with
  | nil =>
      intro s hs _
      unfold deliverGo
      refine ⟨rfl, ?_, ?_, rfl, rfl, rfl, rfl, rfl, rfl, rfl, rfl, rfl, rfl, rfl, ?_⟩
      · rw [hs]
      · rw [hs]
      · intro b hb; rw [hs] at hb; exact absurd hb (by simp)
  | cons b rest ih =>
      intro s hs hcc
      unfold deliverGo
      by_cases hdue : b.readyAt ≤ s.now
      · rw [if_pos hdue]
        simp only [List.length_cons] at hcc
        obtain ⟨c1, c2, c3, c4, c5, c6, c7, c8, c9, c10, c11, c12, c13, c14, c15⟩ :=
          ih { s with
              queue := b.item :: s.queue,
              currentConcurrent := s.currentConcurrent - 1,
              consecutiveFailures := 0 } (by dsimp only; exact hs) (by dsimp only; omega)
        dsimp only at c1 c2 c3 c4 c5 c6 c7 c8 c9 c10 c11 c12 c13 c14 c15
        simp only [List.length_cons] at c2
        refine ⟨c1, by simp only [List.length_cons]; omega, by simp only [List.length_cons]; omega,
          c4, c5, c6, c7, c8, c9, c10, c11, c12, c13, c14, ?_⟩
        intro x hx
        exact List.mem_cons_of_mem b (c15 x hx)
      · rw [if_neg hdue]
        refine ⟨rfl, ?_, ?_, rfl, rfl, rfl, rfl, rfl, rfl, rfl, rfl, rfl, rfl, rfl, ?_⟩
        · dsimp only
        · dsimp only
        · intro x hx
          dsimp only at hx
          exact hx

lemma deliverDue_spec (s : QS) (h : s.inflight.length ≤ s.currentConcurrent) :
    (deliverDue s).stats = s.stats ∧
    (deliverDue s).queue.length + (deliverDue s).inflight.length
      = s.queue.length + s.inflight.length ∧
    (deliverDue s).currentConcurrent + s.inflight.length
      = s.currentConcurrent + (deliverDue s).inflight.length ∧
    (deliverDue s).completeLog = s.completeLog ∧
    (deliverDue s).progressLog = s.progressLog ∧
    (deliverDue s).onProgress = s.onProgress ∧
    (deliverDue s).onComplete = s.onComplete ∧
    (deliverDue s).processing = s.processing ∧
    (deliverDue s).maxConcurrent = s.maxConcurrent ∧
    (deliverDue s).maxConsecutiveFailures = s.maxConsecutiveFailures ∧
    (deliverDue s).now = s.now ∧
    (deliverDue s).taskInvocations = s.taskInvocations ∧
    (∀ b ∈ (deliverDue s).inflight, b ∈ s.inflight) := by
  unfold deliverDue
  obtain ⟨c1, c2, c3, c4, c5, c6, c7, c8, c9, c10, c11, c12, c13, c14, c15⟩ :=
    deliverGo_spec s.inflight { s with inflight := [] } rfl (by dsimp only; exact h)
  dsimp only at c1 c2 c3 c4 c5 c6 c7 c8 c9 c10 c11 c12 c13 c14 c15
  exact ⟨c1, c2, c3, c4, c5, c6, c7, c8, c9, c10, c11, c12, c15⟩

lemma pollStep_inv (js : Nat → Int) (n : Nat) (s : QS) (h : LoopInv n s) :
    LoopInv n (pollStep js s) := by
  unfold pollStep
  by_cases hb : s.circuitBreakerOpen = true
  · rw [if_pos hb]
    obtain ⟨w1, w2, w3, w4, w5, w6, w7, w8, w9, w10, w11, w12, w13⟩ := waitStep_spec 5000 s
    have hinf := congrArg List.length w13
    exact ⟨by rw [w2]; exact h.sums, by rw [w2, w1, w13]; exact h.acct,
      by rw [w7, w13]; exact h.cc, by rw [w4]; exact h.comp_log,
      by rw [w5]; exact h.prog_set, by rw [w6]; exact h.comp_set,
      by rw [w3, w2]; exact h.prog_count,
      by intro b hb2; rw [w13] at hb2; exact h.inflight_retried b hb2⟩
  · rw [if_neg hb]
    obtain ⟨d1, d2, d3, d4, d5, d6, d7, d8, d9, d10, d11, d12⟩ := dispatchBatch_spec js s
    obtain ⟨w1, w2, w3, w4, w5, w6, w7, w8, w9, w10, w11, w12, w13⟩ :=
      waitStep_spec 100 (dispatchBatch js s)
    have hsums := h.sums
    have hacct := h.acct
    have hcc := h.cc
    have hpc := h.prog_count
    have hd11 := d11 h.prog_set
    have hq := congrArg List.length w1
    have hinf := congrArg List.length w13
    refine ⟨?_, ?_, ?_, ?_, ?_, ?_, ?_, ?_⟩
    · rw [w2]; omega
    · rw [w2]; omega
    · rw [w7, w13]; omega
    · rw [w4, d4]; exact h.comp_log
    · rw [w5, d5]; exact h.prog_set
    · rw [w6, d6]; exact h.comp_set
    · rw [w3, w2]; omega
    · intro b hb2
      rw [w13] at hb2
      rcases d12 b hb2 with h1 | h1
      · exact h.inflight_retried b h1
      · exact h1

lemma deliverDue_inv (n : Nat) (s : QS) (h : LoopInv n s) : LoopInv n (deliverDue s) := by
  obtain ⟨c1, c2, c3, c4, c5, c6, c7, c8, c9, c10, c11, c12, c13⟩ :=
    deliverDue_spec s (by rw [h.cc])
  have hcc := h.cc
  have hacct := h.acct
  exact ⟨by rw [c1]; exact h.sums, by rw [c1]; omega, by omega,
    by rw [c4]; exact h.comp_log, by rw [c6]; exact h.prog_set,
    by rw [c7]; exact h.comp_set, by rw [c5, c1]; exact h.prog_count,
    by intro b hb; exact h.inflight_retried b (c13 b hb)⟩

lemma queueLoop_inv (js : Nat → Int) (n : Nat) :
    ∀ (fuel : Nat) (s s' : QS), LoopInv n s → queueLoop js fuel s = some s' →
      LoopInv n s' ∧ s'.queue = [] := by
  intro fuel
  induction fuel with
  | zero =>
      intro s s' hinv hq
      unfold queueLoop at hq
      by_cases he : s.queue.isEmpty
      · rw [if_pos he] at hq
        cases hq
        exact ⟨hinv, List.isEmpty_iff.mp he⟩
      · rw [if_neg he] at hq
        cases hq
  | succ fuel ih =>
      intro s s' hinv hq
      unfold queueLoop at hq
      by_cases he : s.queue.isEmpty
      · rw [if_pos he] at hq
        cases hq
        exact ⟨hinv, List.isEmpty_iff.mp he⟩
      · rw [if_neg he] at hq
        exact ih (deliverDue (pollStep js s)) s'
          (deliverDue_inv n (pollStep js s) (pollStep_inv js n s hinv)) hq

lemma queueInsertBy_length (f : α → Int) (q : List α) (item : α) :
    (queueInsertBy f q item).length = q.length + 1 := by
  unfold queueInsertBy
  split
  · cases hfind : q.findIdx? (fun x => f x < f item) with
    | none => simp
    | some i =>
        have h2 : (q.take i).length + (q.drop i).length = q.length := by
          rw [← List.length_append, List.take_append_drop]
        simp only [List.length_append, List.length_cons]
        omega
  · simp

lemma addToQueue_spec (s : QS) (out : Nat → Attempt) (p : Int) :
    (addToQueue s out p).queue.length = s.queue.length + 1 ∧
    (addToQueue s out p).stats = s.stats ∧
    (addToQueue s out p).currentConcurrent = s.currentConcurrent ∧
    (addToQueue s out p).completeLog = s.completeLog ∧
    (addToQueue s out p).progressLog = s.progressLog ∧
    (addToQueue s out p).onProgress = s.onProgress ∧
    (addToQueue s out p).onComplete = s.onComplete ∧
    (addToQueue s out p).processing = s.processing ∧
    (addToQueue s out p).circuitBreakerOpen = s.circuitBreakerOpen ∧
    (addToQueue s out p).breakerCloseAt = s.breakerCloseAt ∧
    (addToQueue s out p).consecutiveFailures = s.consecutiveFailures ∧
    (addToQueue s out p).maxConcurrent = s.maxConcurrent ∧
    (addToQueue s out p).maxConsecutiveFailures = s.maxConsecutiveFailures ∧
    (addToQueue s out p).now = s.now ∧
    (addToQueue s out p).taskInvocations = s.taskInvocations ∧
    (addToQueue s out p).inflight = s.inflight :=
  ⟨queueInsertBy_length _ _ _, rfl, rfl, rfl, rfl, rfl, rfl, rfl, rfl, rfl, rfl, rfl, rfl,
    rfl, rfl, rfl⟩

lemma addBatch_spec (p : Int) :
    ∀ (tasks : List (Nat → Attempt)) (s : QS),
    (addBatch s tasks p).queue.length = s.queue.length + tasks.length ∧
    (addBatch s tasks p).stats = s.stats ∧
    (addBatch s tasks p).currentConcurrent = s.currentConcurrent ∧
    (addBatch s tasks p).completeLog = s.completeLog ∧
    (addBatch s tasks p).progressLog = s.progressLog ∧
    (addBatch s tasks p).onProgress = s.onProgress ∧
    (addBatch s tasks p).onComplete = s.onComplete ∧
    (addBatch s tasks p).processing = s.processing ∧
    (addBatch s tasks p).circuitBreakerOpen = s.circuitBreakerOpen ∧
    (addBatch s tasks p).breakerCloseAt = s.breakerCloseAt ∧
    (addBatch s tasks p).consecutiveFailures = s.consecutiveFailures ∧
    (addBatch s tasks p).inflight = s.inflight := by
  intro tasks
  induction tasks with
  | nil =>
      intro s
      exact ⟨by simp [addBatch], rfl, rfl, rfl, rfl, rfl, rfl, rfl, rfl, rfl, rfl, rfl⟩
  | cons t ts ih =>
      intro s
      have hfold : addBatch s (t :: ts) p = addBatch (addToQueue s t p) ts p := rfl
      obtain ⟨a1, a2, a3, a4, a5, a6, a7, a8, a9, a10, a11, a12, a13, a14, a15, a16⟩ :=
        addToQueue_spec s t p
      obtain ⟨c1, c2, c3, c4, c5, c6, c7, c8, c9, c10, c11, c12⟩ := ih (addToQueue s t p)
      rw [hfold]
      refine ⟨?_, by rw [c2, a2], by rw [c3, a3], by rw [c4, a4], by rw [c5, a5],
        by rw [c6, a6], by rw [c7, a7], by rw [c8, a8], by rw [c9, a9], by rw [c10, a10],
        by rw [c11, a11], by rw [c12, a16]⟩
      rw [c1, a1]
      simp only [List.length_cons]
      omega

lemma startState_spec (tasks : List (Nat → Attempt)) :
    (startState tasks).queue.length = tasks.length ∧
    (startState tasks).stats = ⟨0, 0, 0, 0⟩ ∧
    (startState tasks).currentConcurrent = 0 ∧
    (startState tasks).completeLog = [] ∧
    (startState tasks).progressLog = [] ∧
    (startState tasks).onProgress = some () ∧
    (startState tasks).onComplete = some () ∧
    (startState tasks).processing = false ∧
    (startState tasks).circuitBreakerOpen = false ∧
    (startState tasks).breakerCloseAt = none ∧
    (startState tasks).consecutiveFailures = 0 ∧
    (startState tasks).inflight = [] := by
  unfold startState
  obtain ⟨a1, a2, a3, a4, a5, a6, a7, a8, a9, a10, a11, a12⟩ :=
    addBatch_spec 0 tasks (setOnComplete (setOnProgress initState ()) ())
  exact ⟨by rw [a1]; simp [setOnComplete, setOnProgress, initState], a2, a3, a4, a5, a6, a7,
    a8, a9, a10, a11, a12⟩

/-- The exit behaviour of a full `processQueue` run from `startState tasks`:
the run ends exactly when the *pending* queue is observed empty; at that
point the stats balance, every enqueued item is either terminally processed
or still in a retry backoff (`inflight`), only retried items can be in
flight, `onProgress` fired once per success, and `onComplete` fired exactly
once with the `getStats` snapshot of that moment. -/
lemma processQueue_drain_spec (js : Nat → Int) (tasks : List (Nat → Attempt)) (fuel : Nat)
    (s' : QS) (h : processQueue js fuel (startState tasks) = some s') :
    s'.queue = [] ∧
    s'.stats.totalSuccess + s'.stats.totalFailed = s'.stats.totalProcessed ∧
    s'.stats.totalProcessed + s'.inflight.length = tasks.length ∧
    s'.completeLog = [getStats s'] ∧
    s'.progressLog.length = s'.stats.totalSuccess ∧
    s'.processing = false ∧
    (∀ b ∈ s'.inflight, 1 ≤ b.item.retries) := by
  obtain ⟨t1, t2, t3, t4, t5, t6, t7, t8, t9, t10, t11, t12⟩ := startState_spec tasks
  unfold processQueue at h
  rw [t8] at h
  simp only [Bool.false_eq_true, if_false] at h
  have hinv : LoopInv tasks.length { startState tasks with processing := true } := by
    refine ⟨?_, ?_, ?_, ?_, ?_, ?_, ?_, ?_⟩ <;> dsimp only
    · simp [t2]
    · simp [t2, t1, t12]
    · simp [t3, t12]
    · exact t4
    · rw [t6]; rfl
    · rw [t7]; rfl
    · simp [t5, t2]
    · intro b hb; rw [t12] at hb; exact absurd hb (by simp)
  cases hq : queueLoop js fuel { startState tasks with processing := true } with
  | none => rw [hq] at h; cases h
  | some s1 =>
      rw [hq] at h
      obtain ⟨inv1, hdrain⟩ :=
        queueLoop_inv js tasks.length fuel { startState tasks with processing := true } s1 hinv hq
      simp only [Option.some.injEq] at h
      have hcset : ({ s1 with processing := false } : QS).onComplete.isSome = true := inv1.comp_set
      rw [hcset] at h
      simp only [if_true] at h
      subst h
      refine ⟨hdrain, inv1.sums, ?_, ?_, inv1.prog_count, rfl, inv1.inflight_retried⟩
      · have := inv1.acct
        rw [hdrain] at this
        simpa using this
      · rw [inv1.comp_log]
        rfl


/-!  ## C1, C6, C8, C9 -/

/-- C1, counterexample. Two items are enqueued (one success, one always
failing with retryable "timeout"), yet the run completes with
`totalProcessed = 1`: the drain check `while (this.queue.length > 0)` looks
only at the pending array, so when the second item is waiting out its first
backoff the loop exits, `onComplete` fires with the undercounted snapshot,
and the item is left in flight — refuting
`totalProcessed = number of items enqueued`. -/
theorem queue_drain_undercounts_inflight_retry :
    c1LossTasks.length = 2 ∧
    processQueue js0 20 (startState c1LossTasks) = some c1LossFinal ∧
    c1LossFinal.stats.totalProcessed = 1 ∧
    c1LossFinal.stats = ⟨1, 1, 0, 1⟩ ∧
    c1LossFinal.completeLog = [getStats c1LossFinal] ∧
    c1LossFinal.inflight.length = 1 :=
  ⟨by decide, rfl, by decide, by decide, by decide, by decide⟩

/-- C1, amended. For every completed run from freshly reset stats,
`totalSuccess + totalFailed = totalProcessed` and `totalProcessed` plus the
number of items still waiting in a retry backoff equals the number of items
enqueued; `onComplete` fires exactly once, with the stats snapshot of the
moment the pending queue is observed empty.  When no item is mid-backoff at
that moment the original accounting holds: the 12-item all-success scenario
ends `{12, 12, 0, 0}` with a single `onComplete` and nothing in flight, and
in the 51-item scenario whose retried item is redelivered while the queue is
still busy every item is accounted (`{51, 51, 0, 1}`, nothing in flight). -/
theorem queue_drain_accounting (js : Nat → Int) (tasks : List (Nat → Attempt)) (fuel : Nat)
    (s' : QS) (h : processQueue js fuel (startState tasks) = some s') :
    s'.stats.totalSuccess + s'.stats.totalFailed = s'.stats.totalProcessed ∧
    s'.stats.totalProcessed + s'.inflight.length = tasks.length ∧
    s'.completeLog = [getStats s'] ∧
    (processQueue js0 20 (startState c1Tasks)).map
        (fun t => (t.stats, t.completeLog.length, t.inflight.length))
      = some (⟨12, 12, 0, 0⟩, 1, 0) ∧
    (processQueue js0 25 (startState c1BusyTasks)).map
        (fun t => (t.stats, t.completeLog.length, t.inflight.length))
      = some (⟨51, 51, 0, 1⟩, 1, 0) := by
  obtain ⟨d1, d2, d3, d4, d5, d6, d7⟩ := processQueue_drain_spec js tasks fuel s' h
  exact ⟨d2, d3, d4, by decide, by decide⟩

/-- Witness for C1's amended theorem at the 12-item all-success scenario. -/
theorem queue_drain_accounting_witness :
    c1Final.stats.totalSuccess + c1Final.stats.totalFailed = c1Final.stats.totalProcessed ∧
    c1Final.stats.totalProcessed + c1Final.inflight.length = c1Tasks.length ∧
    c1Final.completeLog = [getStats c1Final] ∧
    (processQueue js0 20 (startState c1Tasks)).map
        (fun t => (t.stats, t.completeLog.length, t.inflight.length))
      = some (⟨12, 12, 0, 0⟩, 1, 0) ∧
    (processQueue js0 25 (startState c1BusyTasks)).map
        (fun t => (t.stats, t.completeLog.length, t.inflight.length))
      = some (⟨51, 51, 0, 1⟩, 1, 0) :=
  queue_drain_accounting js0 c1Tasks 20 c1Final rfl

/-- C6. A terminal failure is contained: the failure branch of
`_processTask` and the `.catch` continuation change only the stats and the
consecutive-failure counter (and, at the threshold, the breaker) — the
pending queue, both observer logs and the in-flight set are untouched — no
exception reaches the caller (the run function is total and returns
normally), and the loop keeps processing the remaining items: every
completed run drains the pending queue with
`totalSuccess + totalFailed = totalProcessed`, only items parked in a retry
backoff (never terminal failures) can be missing from that count, and the
one-failure-then-three-successes scenario ends `{4, 3, 1, 0}` with an empty
queue, nothing in flight, breaker closed and the counter reset by the
subsequent successes. -/
theorem terminal_failure_contained (js : Nat → Int) (tasks : List (Nat → Attempt)) (fuel : Nat)
    (s' : QS) (h : processQueue js fuel (startState tasks) = some s') :
    s'.queue = [] ∧
    s'.processing = false ∧
    s'.stats.totalSuccess + s'.stats.totalFailed = s'.stats.totalProcessed ∧
    s'.stats.totalProcessed + s'.inflight.length = tasks.length ∧
    (∀ b ∈ s'.inflight, 1 ≤ b.item.retries) ∧
    (∀ s2 : QS,
      (settleTask (recordTerminalFailure s2) true).queue = s2.queue ∧
      (settleTask (recordTerminalFailure s2) true).progressLog = s2.progressLog ∧
      (settleTask (recordTerminalFailure s2) true).completeLog = s2.completeLog ∧
      (settleTask (recordTerminalFailure s2) true).inflight = s2.inflight ∧
      (settleTask (recordTerminalFailure s2) true).stats.totalFailed
        = s2.stats.totalFailed + 1 ∧
      (settleTask (recordTerminalFailure s2) true).consecutiveFailures
        = s2.consecutiveFailures + 1) ∧
    (processQueue js0 20 (startState c6Tasks)).map
        (fun t => (t.stats, t.queue.length, t.inflight.length, t.circuitBreakerOpen,
          t.consecutiveFailures))
      = some (⟨4, 3, 1, 0⟩, 0, 0, false, 0) := by
  obtain ⟨d1, d2, d3, d4, d5, d6, d7⟩ := processQueue_drain_spec js tasks fuel s' h
  refine ⟨d1, d6, d2, d3, d7, ?_, by decide⟩
  intro s2
  obtain ⟨b1, b2, b3, b4, b5, b6, b7, b8, b9, b10, b11, b12, b13, b14, b15, b16, b17, b18⟩ :=
    branch_fail_spec s2
  exact ⟨b1, b14, b8, b16, b4, b7⟩

/-- Witness for C6 at the mixed scenario. -/
theorem terminal_failure_contained_witness :
    c6Final.queue = [] ∧
    c6Final.processing = false ∧
    c6Final.stats.totalSuccess + c6Final.stats.totalFailed = c6Final.stats.totalProcessed ∧
    c6Final.stats.totalProcessed + c6Final.inflight.length = c6Tasks.length ∧
    (∀ b ∈ c6Final.inflight, 1 ≤ b.item.retries) ∧
    (∀ s2 : QS,
      (settleTask (recordTerminalFailure s2) true).queue = s2.queue ∧
      (settleTask (recordTerminalFailure s2) true).progressLog = s2.progressLog ∧
      (settleTask (recordTerminalFailure s2) true).completeLog = s2.completeLog ∧
      (settleTask (recordTerminalFailure s2) true).inflight = s2.inflight ∧
      (settleTask (recordTerminalFailure s2) true).stats.totalFailed
        = s2.stats.totalFailed + 1 ∧
      (settleTask (recordTerminalFailure s2) true).consecutiveFailures
        = s2.consecutiveFailures + 1) ∧
    (processQueue js0 20 (startState c6Tasks)).map
        (fun t => (t.stats, t.queue.length, t.inflight.length, t.circuitBreakerOpen,
          t.consecutiveFailures))
      = some (⟨4, 3, 1, 0⟩, 0, 0, false, 0) :=
  terminal_failure_contained js0 c6Tasks 20 c6Final rfl

/-- C8, counterexample. One enqueued task fails with a non-retryable
error while an `onProgress` observer is registered: the unit reaches a
terminal completion (`totalProcessed = 1`, a terminal failure), yet
`onProgress` is never invoked (`progressLog = []`) because `_processTask`
calls it only in the success branch (lines 112-119) — refuting "invoked once
per terminal completion, whether that completion is a success or a terminal
failure". -/
theorem onProgress_skipped_on_terminal_failure :
    (startState c8Tasks).onProgress.isSome = true ∧
    processQueue js0 20 (startState c8Tasks) = some c8Final ∧
    c8Final.stats.totalProcessed = 1 ∧
    c8Final.stats.totalFailed = 1 ∧
    c8Final.progressLog = [] ∧
    c8Final.completeLog.length = 1 :=
  ⟨by decide, rfl, by decide, by decide, by decide, by decide⟩

/-- C8, amended. With both observers registered, in every completed run
`onProgress` is invoked exactly once per *successful* completion (terminal
failures do not trigger it — see the counterexample), and `onComplete` is
invoked exactly once, when the *pending* queue is observed empty, with the
stats snapshot of that moment — which can happen while a unit is still
waiting in a retry backoff, before its terminal completion: in the
single-"network"-failure scenario `onComplete` fires once with
`totalProcessed = 0` while the item is still in flight and `onProgress` was
never called. -/
theorem observer_invocation_discipline (js : Nat → Int) (tasks : List (Nat → Attempt))
    (fuel : Nat) (s' : QS) (h : processQueue js fuel (startState tasks) = some s') :
    s'.progressLog.length = s'.stats.totalSuccess ∧
    s'.completeLog = [getStats s'] ∧
    (processQueue js0 20 (startState c8EarlyTasks)).map
        (fun t => (t.progressLog.length, t.completeLog.length, t.inflight.length,
          t.stats.totalProcessed))
      = some (0, 1, 1, 0) := by
  obtain ⟨d1, d2, d3, d4, d5, d6, d7⟩ := processQueue_drain_spec js tasks fuel s' h
  exact ⟨d5, d4, by decide⟩

/-- Witness for C8's amended theorem at the success-then-failure scenario. -/
theorem observer_invocation_discipline_witness :
    c8MixFinal.progressLog.length = c8MixFinal.stats.totalSuccess ∧
    c8MixFinal.completeLog = [getStats c8MixFinal] ∧
    (processQueue js0 20 (startState c8EarlyTasks)).map
        (fun t => (t.progressLog.length, t.completeLog.length, t.inflight.length,
          t.stats.totalProcessed))
      = some (0, 1, 1, 0) :=
  observer_invocation_discipline js0 c8MixTasks 20 c8MixFinal rfl

/-- C9. The retry backoff itself is as claimed —
`min(1000 * 2^retryCount, 30000) + jitter`, exponential with base 1000 ms,
capped, with successive delays non-decreasing for every admissible jitter
draw — but the claimed end-to-end scenario diverges from the code: enqueue
one task that always rejects with a "rate limit" message (maxRetries 3) and
the drain check `while (this.queue.length > 0)` exits during the first
backoff, so the run makes exactly 1 task invocation (not 4), ends with
stats `{totalProcessed := 0, totalSuccess := 0, totalFailed := 0,
totalRetries := 1}` (not `totalFailed 1, totalRetries 3`), fires
`onComplete` once with that snapshot, and strands the item in flight. -/
theorem retry_backoff_and_rate_limit_scenario
    (j0 j1 j2 : Int) (h0 : j0 < 1000) (h1 : 0 ≤ j1) (h2 : j1 < 1000) (h3 : 0 ≤ j2) :
    getRetryDelay 0 j0 ≤ getRetryDelay 1 j1 ∧
    getRetryDelay 1 j1 ≤ getRetryDelay 2 j2 ∧
    (∀ (r : Nat) (j : Int), getRetryDelay r j ≤ 30000 + j) ∧
    processQueue js0 20 (startState c9Tasks) = some c9Final ∧
    c9Final.taskInvocations = 1 ∧
    c9Final.stats = ⟨0, 0, 0, 1⟩ ∧
    c9Final.inflight.length = 1 ∧
    c9Final.completeLog.length = 1 := by
  refine ⟨?_, ?_, ?_, rfl, by decide, by decide, by decide, by decide⟩
  · simp only [getRetryDelay]
    norm_num
    omega
  · simp only [getRetryDelay]
    norm_num
    omega
  · intro r j
    simp only [getRetryDelay]
    have hm : min ((1000 : Int) * 2 ^ r) 30000 ≤ 30000 := min_le_right _ _
    omega

/-- Witness for C9 at the concrete jitter draw 0. -/
theorem retry_backoff_and_rate_limit_scenario_witness :
    getRetryDelay 0 0 ≤ getRetryDelay 1 0 ∧
    getRetryDelay 1 0 ≤ getRetryDelay 2 0 ∧
    (∀ (r : Nat) (j : Int), getRetryDelay r j ≤ 30000 + j) ∧
    processQueue js0 20 (startState c9Tasks) = some c9Final ∧
    c9Final.taskInvocations = 1 ∧
    c9Final.stats = ⟨0, 0, 0, 1⟩ ∧
    c9Final.inflight.length = 1 ∧
    c9Final.completeLog.length = 1 :=
  retry_backoff_and_rate_limit_scenario 0 0 0 (by decide) (by decide) (by decide) (by decide)

/-!  ## C3: retryable failure handling -/

lemma recordRetry_spec (js : Nat → Int) (s : QS) (item : QueueItem) :
    (recordRetry js s item).queue = { item with retries := item.retries + 1 } :: s.queue ∧
    (recordRetry js s item).stats.totalRetries = s.stats.totalRetries + 1 ∧
    (recordRetry js s item).stats.totalProcessed = s.stats.totalProcessed ∧
    (recordRetry js s item).stats.totalSuccess = s.stats.totalSuccess ∧
    (recordRetry js s item).stats.totalFailed = s.stats.totalFailed ∧
    (recordRetry js s item).now
      = s.now + getRetryDelay item.retries (js s.stats.totalRetries) := by
  unfold recordRetry
  obtain ⟨w1, w2, w3, w4, w5, w6, w7, w8, w9, w10, w11, w12, w13⟩ :=
    waitStep_spec (getRetryDelay item.retries (js s.stats.totalRetries))
      { s with stats := { s.stats with totalRetries := s.stats.totalRetries + 1 } }
  dsimp only at w1 w2 w12 ⊢
  refine ⟨by rw [w1], ?_, ?_, ?_, ?_, by rw [w12]⟩ <;> rw [w2]

lemma pollStep_now_mono (js : Nat → Int) (hjs : ∀ k, 0 ≤ js k) (s : QS) :
    s.now ≤ (pollStep js s).now := by
  have hu : 0 ≤ js 0 := hjs 0
  unfold pollStep
  by_cases hb : s.circuitBreakerOpen = true
  · rw [if_pos hb]
    have := (waitStep_spec 5000 s).2.2.2.2.2.2.2.2.2.2.2.1
    omega
  · rw [if_neg hb]
    have h1 := (waitStep_spec 100 (dispatchBatch js s)).2.2.2.2.2.2.2.2.2.2.2.1
    have h2 := (dispatchBatch_spec js s).2.2.2.2.2.2.2.2.2.1
    omega

/-- C3. When a dispatched item's task fails with a retryable error while
its retry count is below its `maxRetries`, `_processTask` does not re-throw,
increments the item's retry count and the `totalRetries` stat by exactly one
(all other stats unchanged), reinserts the updated item at the *front* of the
pending queue, and does so only after waiting the backoff delay computed for
the item's current (pre-increment) retry count — and since the interpreter's
clock never decreases (for nonnegative jitter draws), no later dispatch of
the reinserted item can happen earlier than that delay after the failure. -/
theorem retryable_failure_requeues_front (js : Nat → Int) (s : QS) (item : QueueItem)
    (msg : String) (h1 : item.outcomes item.retries = Attempt.err msg)
    (h2 : isRetryable msg = true) (h3 : item.retries < item.maxRetries) :
    (processTask js s item).2 = false ∧
    (processTask js s item).1.queue = { item with retries := item.retries + 1 } :: s.queue ∧
    (processTask js s item).1.stats.totalRetries = s.stats.totalRetries + 1 ∧
    (processTask js s item).1.stats.totalProcessed = s.stats.totalProcessed ∧
    (processTask js s item).1.stats.totalSuccess = s.stats.totalSuccess ∧
    (processTask js s item).1.stats.totalFailed = s.stats.totalFailed ∧
    (processTask js s item).1.now
      = s.now + getRetryDelay item.retries (js s.stats.totalRetries) ∧
    (∀ (js2 : Nat → Int), (∀ k, 0 ≤ js2 k) → ∀ (s2 : QS), s2.now ≤ (pollStep js2 s2).now) := by
  unfold processTask
  rw [h1]
  dsimp only
  rw [if_pos ⟨h2, h3⟩]
  dsimp only
  obtain ⟨r1, r2, r3, r4, r5, r6⟩ :=
    recordRetry_spec js { s with taskInvocations := s.taskInvocations + 1 } item
  dsimp only at r1 r2 r3 r4 r5 r6
  exact ⟨rfl, r1, r2, r3, r4, r5, r6, fun js2 hjs2 s2 => pollStep_now_mono js2 hjs2 s2⟩

/-- Witness for C3 at the "timeout" item dispatched from an empty fresh
manager. -/
theorem retryable_failure_requeues_front_witness :
    (processTask js0 (startState []) c3Item).2 = false ∧
    (processTask js0 (startState []) c3Item).1.queue
      = { c3Item with retries := c3Item.retries + 1 } :: (startState []).queue ∧
    (processTask js0 (startState []) c3Item).1.stats.totalRetries
      = (startState []).stats.totalRetries + 1 ∧
    (processTask js0 (startState []) c3Item).1.stats.totalProcessed
      = (startState []).stats.totalProcessed ∧
    (processTask js0 (startState []) c3Item).1.stats.totalSuccess
      = (startState []).stats.totalSuccess ∧
    (processTask js0 (startState []) c3Item).1.stats.totalFailed
      = (startState []).stats.totalFailed ∧
    (processTask js0 (startState []) c3Item).1.now
      = (startState []).now + getRetryDelay c3Item.retries (js0 (startState []).stats.totalRetries) ∧
    (∀ (js2 : Nat → Int), (∀ k, 0 ≤ js2 k) → ∀ (s2 : QS), s2.now ≤ (pollStep js2 s2).now) :=
  retryable_failure_requeues_front js0 (startState []) c3Item "timeout" rfl (by decide) (by decide)

/-- C2. Circuit breaker: a terminal failure that brings the
consecutive-failure count up to `maxConsecutiveFailures` opens the breaker;
while the breaker is open a poll of the loop dispatches nothing and discards
nothing (queue, stats and task invocations unchanged — it only waits); once
the armed close deadline falls inside the 5000 ms wait the breaker closes
and the consecutive-failure counter resets to 0.  In the concrete
ten-failures-then-two-successes run: the breaker is open after poll 2 (the
10th failure), the two remaining items stay queued and undispatched through
poll 7, at poll 8 (30000 ms cool-down elapsed) the breaker is closed with
the counter reset and the items still queued, and the run then resumes
automatically and drains with stats `{12, 2, 10, 0}`. -/
theorem circuit_breaker_open_close (js : Nat → Int) (s : QS)
    (hopen : s.circuitBreakerOpen = true) :
    (pollStep js s).queue = s.queue ∧
    (pollStep js s).stats = s.stats ∧
    (pollStep js s).taskInvocations = s.taskInvocations ∧
    (∀ t : Int, s.breakerCloseAt = some t → t ≤ s.now + 5000 →
      (pollStep js s).circuitBreakerOpen = false ∧ (pollStep js s).consecutiveFailures = 0) ∧
    (∀ s2 : QS, s2.consecutiveFailures + 1 ≥ s2.maxConsecutiveFailures →
      (settleTask s2 true).circuitBreakerOpen = true) ∧
    ((c2At 2).circuitBreakerOpen = true ∧ (c2At 2).consecutiveFailures = 10 ∧
      (c2At 2).queue.length = 2 ∧ (c2At 2).stats.totalProcessed = 10) ∧
    ((c2At 7).circuitBreakerOpen = true ∧ (c2At 7).queue.length = 2 ∧
      (c2At 7).stats = (c2At 2).stats ∧ (c2At 7).taskInvocations = (c2At 2).taskInvocations) ∧
    ((c2At 8).circuitBreakerOpen = false ∧ (c2At 8).consecutiveFailures = 0 ∧
      (c2At 8).queue.length = 2) ∧
    processQueue js0 20 (startState c2Tasks) = some c2Final ∧
    c2Final.stats = ⟨12, 2, 10, 0⟩ ∧
    c2Final.queue.length = 0 := by
  obtain ⟨w1, w2, w3, w4, w5, w6, w7, w8, w9, w10, w11, w12⟩ := waitStep_spec 5000 s
  have hpoll : pollStep js s = waitStep 5000 s := by
    unfold pollStep; rw [if_pos hopen]
  refine ⟨by rw [hpoll, w1], by rw [hpoll, w2], by rw [hpoll, w11], ?_, ?_,
    by refine ⟨by decide, by decide, by decide, by decide⟩,
    by refine ⟨by decide, by decide, by decide, by decide⟩,
    by refine ⟨by decide, by decide, by decide⟩, rfl, by decide, by decide⟩
  · intro t ht hle
    rw [hpoll]
    unfold waitStep
    dsimp only
    rw [ht]
    dsimp only
    rw [if_pos ⟨hopen, hle⟩]
    exact ⟨rfl, rfl⟩
  · intro s2 hge
    unfold settleTask
    dsimp only
    rw [if_pos hge]
    rfl

/-- Witness for C2: the open-breaker frame conjuncts applied at the concrete
open state reached after poll 2 of the scenario run. -/
theorem circuit_breaker_open_close_witness :
    (pollStep js0 (c2At 2)).queue = (c2At 2).queue ∧
    (pollStep js0 (c2At 2)).stats = (c2At 2).stats ∧
    (pollStep js0 (c2At 2)).taskInvocations = (c2At 2).taskInvocations :=
  let h := circuit_breaker_open_close js0 (c2At 2) (by decide)
  ⟨h.1, h.2.1, h.2.2.1⟩
